import Mathlib

/-!
Verification of the ANCS (Apple Notification Center Service) client core:
a shallow embedding of the Notification Source decoder, the Data Source
attribute-response byte-stream state machine, the Control Point command
encoders and the session dispatch layer, translated from
`subsys/bluetooth/services/ancs_c.c` and
`subsys/bluetooth/services/ancs_attr_parser.c` (together with the
"get app attributes" encoder compiled into the same module), with theorems
settling the specification claims about them.

Modelling conventions:
* machine integers are `Nat`; the source's `u8`/`u16`/`u32` truncations are
  made explicit (`% 256`, `% 65536`, `% 2 ^ 32`) exactly where the C performs
  a narrowing store or cast;
* caller-supplied byte buffers are modelled as total functions `Nat → Nat`
  (a view of memory starting at the buffer base), so that stores past the
  end of an array stay observable;
* GATT records are `List Nat`; the C code twice reads bytes beyond the end
  of the record it was handed (`notif_uid_parse` and the short-record path
  of `parse_notif`); those out-of-bounds reads are modelled with default 0
  (`List.getD`) and none of the theorems below depends on the value chosen;
* the sink callback (`evt_handler`) is modelled by accumulating the list of
  delivered events, each event snapshotting the `evt` structure and the
  buffer the event points at, which is exactly what the handler can observe
  at delivery time.
-/

set_option maxRecDepth 8000

namespace Ancs

/-! ## Byte-order helpers (`sys/byteorder.h`) -/

/-- `sys_put_le16`: a `u16` value as two little-endian bytes. -/
def le16 (x : Nat) : List Nat := [x % 256, x / 256 % 256]

/-- `sys_put_le32`: a `u32` value as four little-endian bytes. -/
def le32 (x : Nat) : List Nat :=
  [x % 256, x / 256 % 256, x / 2 ^ 16 % 256, x / 2 ^ 24 % 256]

/-- `sys_get_le32`: assemble a `u32` from four little-endian bytes, by
or-ing shifted lanes exactly as the C helper does. -/
def sys_get_le32 (b0 b1 b2 b3 : Nat) : Nat :=
  b0 ||| (b1 <<< 8) ||| (b2 <<< 16) ||| (b3 <<< 24)

theorem lor_shl_eq_add (a b k : Nat) (h : a < 2 ^ k) :
    a ||| (b <<< k) = a + 2 ^ k * b := by
  apply Nat.eq_of_testBit_eq
  intro i
  rw [Nat.testBit_lor, Nat.testBit_shiftLeft, Nat.add_comm a,
    Nat.testBit_mul_pow_two_add b h i]
  rcases Nat.lt_or_ge i k with hi | hi
  · simp [hi, Nat.not_le.mpr hi]
  · have ha : a.testBit i = false :=
      Nat.testBit_lt_two_pow (lt_of_lt_of_le h (Nat.pow_le_pow_right (by norm_num) hi))
    simp [ha, hi, Nat.not_lt.mpr hi]

theorem sys_get_le32_bytes (b0 b1 b2 b3 : Nat)
    (h0 : b0 < 256) (h1 : b1 < 256) (h2 : b2 < 256) (h3 : b3 < 256) :
    sys_get_le32 b0 b1 b2 b3 = b0 + 256 * b1 + 65536 * b2 + 16777216 * b3 := by
  unfold sys_get_le32
  rw [lor_shl_eq_add b0 b1 8 (by omega)]
  rw [lor_shl_eq_add _ b2 16 (by norm_num; omega)]
  rw [lor_shl_eq_add _ b3 24 (by norm_num; omega)]
  norm_num

theorem sys_get_le32_le32 (x : Nat) :
    sys_get_le32 (x % 256) (x / 256 % 256) (x / 2 ^ 16 % 256) (x / 2 ^ 24 % 256) =
      x % 2 ^ 32 := by
  rw [sys_get_le32_bytes _ _ _ _ (Nat.mod_lt _ (by norm_num)) (Nat.mod_lt _ (by norm_num))
    (Nat.mod_lt _ (by norm_num)) (Nat.mod_lt _ (by norm_num))]
  omega

/-! ## Constants from `ancs_c.h` -/

def BT_GATT_ANCS_ATTR_DATA_MAX : Nat := 32
def BT_GATT_ANCS_NB_OF_CATEGORY_ID : Nat := 12
def BT_GATT_ANCS_NB_OF_NOTIF_ATTR : Nat := 8
def BT_GATT_ANCS_NB_OF_APP_ATTR : Nat := 1
def BT_GATT_ANCS_NB_OF_EVT_ID : Nat := 3
def BT_GATT_ANCS_NOTIFICATION_DATA_LENGTH : Nat := 8

def BT_GATT_ANCS_COMMAND_ID_GET_NOTIF_ATTRIBUTES : Nat := 0
def BT_GATT_ANCS_COMMAND_ID_GET_APP_ATTRIBUTES : Nat := 1
def BT_GATT_ANCS_COMMAND_ID_GET_PERFORM_NOTIF_ACTION : Nat := 2

def BT_GATT_ANCS_EVENT_FLAG_SILENT : Nat := 0
def BT_GATT_ANCS_EVENT_FLAG_IMPORTANT : Nat := 1
def BT_GATT_ANCS_EVENT_FLAG_PREEXISTING : Nat := 2
def BT_GATT_ANCS_EVENT_FLAG_POSITIVE_ACTION : Nat := 3
def BT_GATT_ANCS_EVENT_FLAG_NEGATIVE_ACTION : Nat := 4

/-- Errno values used through the module (returned negated, as in Zephyr). -/
def EAGAIN : Int := 11
def ENOMEM : Int := 12
def EINVAL : Int := 22

/-! ## Data model (`struct bt_gatt_ancs_c` and friends) -/

/-- `bt_gatt_ancs_c_parse_state_t`. -/
inductive ParseState
  | COMMAND_ID
  | NOTIF_UID
  | APP_ID
  | ATTR_ID
  | ATTR_LEN1
  | ATTR_LEN2
  | ATTR_DATA
  | ATTR_SKIP
  | DONE
deriving DecidableEq

/-- `bt_gatt_ancs_c_evt_type_t`. -/
inductive EvtType
  | NOTIF
  | INVALID_NOTIF
  | NOTIF_ATTRIBUTE
  | APP_ATTRIBUTE
  | NP_ERROR
deriving DecidableEq

/-- Which attribute table `parse_info.p_attr_list` currently points to
(`ancs_notif_attr_list` or `ancs_app_attr_list`). -/
inductive ListSel
  | notif
  | app
deriving DecidableEq

/-- `bt_gatt_ancs_c_attr_list_t`: one registration entry. `attr_len` is the
registered capacity; `hasData` models `p_attr_data != NULL` and `data` the
contents of the memory the pointer refers to. -/
structure AttrListEntry where
  get : Bool
  attr_len : Nat
  hasData : Bool
  data : Nat → Nat

def defaultEntry : AttrListEntry := ⟨false, 0, false, fun _ => 0⟩

instance : Inhabited AttrListEntry := ⟨defaultEntry⟩

/-- The parser-owned part of `bt_gatt_ancs_c_evt_t` (`ancs_c->evt`). -/
structure EvtSt where
  evt_type : EvtType
  notif_uid : Nat
  app_id : Nat → Nat
  attr_id : Nat
  attr_len : Nat

/-- `bt_gatt_ancs_parse_sm_t`. -/
structure ParseInfo where
  p_attr_list : ListSel
  nb_of_attr : Nat
  expected_number_of_attrs : Nat
  parse_state : ParseState
  command_id : Nat
  current_attr_index : Nat
  current_app_id_index : Nat

/-- `struct bt_gatt_ancs_c` (the fields the claims depend on; handles and
subscription parameters are omitted).  `cp_write_params_sem = true` means the
single permit of the Control Point semaphore is available. -/
structure AncsC where
  ancs_notif_attr_list : List AttrListEntry
  ancs_app_attr_list : List AttrListEntry
  parse_info : ParseInfo
  evt : EvtSt
  cp_write_params_sem : Bool
  cp_data : List Nat
  number_of_requested_attr : Nat

/-! ## Events delivered to the sink -/

/-- The notification fields of `bt_gatt_ancs_c_evt_t.notif` as filled in by
`parse_notif`; flags are the single-bit values the C stores into the
bitfield. -/
structure NotifData where
  evt_id : Nat
  silent : Nat
  important : Nat
  pre_existing : Nat
  positive_action : Nat
  negative_action : Nat
  category_id : Nat
  category_count : Nat
  notif_uid : Nat
deriving DecidableEq

/-- Snapshot of the `evt` structure as observed by the sink when an
attribute event is delivered; `data` is the caller storage buffer the
event's `attr.p_attr_data` points at. -/
structure AttrEvtData where
  evt_type : EvtType
  notif_uid : Nat
  app_id : Nat → Nat
  attr_id : Nat
  attr_len : Nat
  data : Nat → Nat

/-- One sink callback invocation. -/
inductive Evt
  | notif (n : NotifData)
  | invalidNotif
  | attr (a : AttrEvtData)
  | npError (code : Nat)

instance : Inhabited Evt := ⟨.invalidNotif⟩

/-- Is this an `InvalidNotif` event? -/
def Evt.isInvalid : Evt → Bool
  | .invalidNotif => true
  | _ => false

/-- Project the attribute payload of an event (`default` otherwise). -/
def Evt.attrD : Evt → AttrEvtData
  | .attr a => a
  | _ => ⟨.NP_ERROR, 0, fun _ => 0, 0, 0, fun _ => 0⟩

/-! ## Notification Source decoder (`parse_notif`, `ancs_c.c`) -/

/-- `bt_gatt_ancs_verify_notification_format`: `0` when in bounds,
`-EINVAL` otherwise. -/
def bt_gatt_ancs_verify_notification_format (evt_id category_id : Nat) : Int :=
  if evt_id ≥ BT_GATT_ANCS_NB_OF_EVT_ID ∨
      category_id ≥ BT_GATT_ANCS_NB_OF_CATEGORY_ID then -EINVAL else 0

/-- `parse_notif`: decode one Notification Source record and return the
events handed to `evt_handler`, in order.  When the record length differs
from 8 the C emits an `InvalidNotif` event and then *continues* decoding
(reading up to 8 bytes, possibly past the record) and emits a second event,
so the returned list mirrors that. -/
def parse_notif (record : List Nat) : List Evt :=
  let pre : List Evt :=
    if record.length ≠ BT_GATT_ANCS_NOTIFICATION_DATA_LENGTH then [.invalidNotif] else []
  let evt_id := record.getD 0 0
  let flags := record.getD 1 0
  let n : NotifData :=
    { evt_id := evt_id
      silent := (flags >>> BT_GATT_ANCS_EVENT_FLAG_SILENT) &&& 1
      important := (flags >>> BT_GATT_ANCS_EVENT_FLAG_IMPORTANT) &&& 1
      pre_existing := (flags >>> BT_GATT_ANCS_EVENT_FLAG_PREEXISTING) &&& 1
      positive_action := (flags >>> BT_GATT_ANCS_EVENT_FLAG_POSITIVE_ACTION) &&& 1
      negative_action := (flags >>> BT_GATT_ANCS_EVENT_FLAG_NEGATIVE_ACTION) &&& 1
      category_id := record.getD 2 0
      category_count := record.getD 3 0
      notif_uid :=
        sys_get_le32 (record.getD 4 0) (record.getD 5 0) (record.getD 6 0) (record.getD 7 0) }
  let main : Evt :=
    if bt_gatt_ancs_verify_notification_format n.evt_id n.category_id = 0 then
      .notif n
    else
      .invalidNotif
  pre ++ [main]

theorem and_one_eq_testBit (f k : Nat) :
    (f >>> k) &&& 1 = if f.testBit k then 1 else 0 := by
  rw [Nat.and_one_is_mod, Nat.shiftRight_eq_div_pow, Nat.testBit_to_div_mod]
  rcases Nat.mod_two_eq_zero_or_one (f / 2 ^ k) with h | h <;> simp [h]

/-- **C2.** For every Notification Source record of length exactly 8, the
decoder emits exactly one event: `InvalidNotif` when byte 0 (`evt_id`) is
`≥ 3` or byte 2 (`category`) is `≥ 12`, and otherwise a `Notif` event whose
fields reconstruct the record bitwise — `evt_id` from byte 0, the five
defined flag bits from bits 0..4 of byte 1 (higher bits ignored),
`category` from byte 2, `category_count` from byte 3, and `notif_uid` as
the little-endian `u32` at bytes 4..7.  The decoder is a pure function of
the record, so no state is carried between records. -/
theorem ns_decode_len8 (r : List Nat)
    (hlen : r.length = 8) (hbytes : ∀ b ∈ r, b < 256) :
    parse_notif r =
      [if r.getD 0 0 ≥ 3 ∨ r.getD 2 0 ≥ 12 then Evt.invalidNotif
       else Evt.notif
        { evt_id := r.getD 0 0
          silent := if (r.getD 1 0).testBit 0 then 1 else 0
          important := if (r.getD 1 0).testBit 1 then 1 else 0
          pre_existing := if (r.getD 1 0).testBit 2 then 1 else 0
          positive_action := if (r.getD 1 0).testBit 3 then 1 else 0
          negative_action := if (r.getD 1 0).testBit 4 then 1 else 0
          category_id := r.getD 2 0
          category_count := r.getD 3 0
          notif_uid := r.getD 4 0 + 256 * r.getD 5 0 +
            65536 * r.getD 6 0 + 16777216 * r.getD 7 0 }] := by
  have hb : ∀ i, r.getD i 0 < 256 := by
    intro i
    by_cases hi : i < r.length
    · rw [List.getD_eq_getElem r 0 hi]
      exact hbytes _ (List.getElem_mem hi)
    · rw [List.getD_eq_default r 0 (Nat.le_of_not_lt hi)]
      norm_num
  unfold parse_notif
  rw [if_neg (by simp [hlen, BT_GATT_ANCS_NOTIFICATION_DATA_LENGTH])]
  unfold bt_gatt_ancs_verify_notification_format
  simp only [BT_GATT_ANCS_NB_OF_EVT_ID, BT_GATT_ANCS_NB_OF_CATEGORY_ID, List.nil_append]
  by_cases hc : r.getD 0 0 ≥ 3 ∨ r.getD 2 0 ≥ 12
  · simp only [if_pos hc]
    rw [if_neg (show ¬((-EINVAL : Int) = 0) by norm_num [EINVAL])]
  · simp only [if_neg hc, if_true]
    refine congrArg (fun n => [Evt.notif n]) ?_
    simp only [NotifData.mk.injEq]
    exact ⟨trivial, and_one_eq_testBit _ _, and_one_eq_testBit _ _, and_one_eq_testBit _ _,
      and_one_eq_testBit _ _, and_one_eq_testBit _ _, trivial, trivial,
      sys_get_le32_bytes _ _ _ _ (hb 4) (hb 5) (hb 6) (hb 7)⟩

/-- Witness for `ns_decode_len8` at the spec's end-to-end scenario 1:
record `00 18 06 02 01 02 03 04` decodes to
`Notif{Added, positive+negative, Email, 2, 0x04030201}`. -/
theorem ns_decode_len8_witness :
    ([0, 24, 6, 2, 1, 2, 3, 4] : List Nat).length = 8 ∧
    parse_notif [0, 24, 6, 2, 1, 2, 3, 4] =
      [Evt.notif ⟨0, 0, 0, 0, 1, 1, 6, 2, 67305985⟩] := by
  refine ⟨rfl, ?_⟩
  have h := ns_decode_len8 [0, 24, 6, 2, 1, 2, 3, 4] rfl (by decide)
  exact h.trans rfl

/-- **C5.** The claim says a Notification Source record whose length differs
from 8 produces exactly one `InvalidNotif` event and never two events; the
code (`parse_notif`) emits the length-mismatch `InvalidNotif` and then
*continues* with a best-effort decode that invokes the handler a second
time.  On the 7-byte record `05 00 00 00 00 00 00` the sink receives
`InvalidNotif` twice, and on the 7-byte record `00 00 00 00 00 00 00` it
receives two events (an `InvalidNotif` followed by a spurious `Notif`). -/
theorem ns_short_record_double_event :
    parse_notif [5, 0, 0, 0, 0, 0, 0] = [Evt.invalidNotif, Evt.invalidNotif] ∧
    ((parse_notif [5, 0, 0, 0, 0, 0, 0]).filter Evt.isInvalid).length = 2 ∧
    ((parse_notif [0, 0, 0, 0, 0, 0, 0]).filter Evt.isInvalid).length = 1 ∧
    (parse_notif [0, 0, 0, 0, 0, 0, 0]).length = 2 :=
  ⟨rfl, rfl, rfl, rfl⟩

/-! ## Data Source parser (`ancs_attr_parser.c`) -/

/-- The attribute table `parse_info.p_attr_list` currently points to. -/
def AncsC.attrList (s : AncsC) : List AttrListEntry :=
  match s.parse_info.p_attr_list with
  | .notif => s.ancs_notif_attr_list
  | .app => s.ancs_app_attr_list

/-- The entry for the attribute currently being parsed
(`parse_info.p_attr_list[evt.attr.attr_id]`). -/
def AncsC.curEntry (s : AncsC) : AttrListEntry :=
  s.attrList.getD s.evt.attr_id defaultEntry

/-- Store one byte at offset `i` of the buffer registered for the current
attribute.  The C stores through `evt.attr.p_attr_data`, which
`attr_id_parse` bound to `p_attr_list[evt.attr.attr_id].p_attr_data`; the
parser never rebinds one without the other, so storing through the table
index is the same store. -/
def AncsC.writeCur (s : AncsC) (i v : Nat) : AncsC :=
  let upd := fun (e : AttrListEntry) =>
    { e with data := fun j => if j = i then v else e.data j }
  match s.parse_info.p_attr_list with
  | .notif =>
      let e := upd (s.ancs_notif_attr_list.getD s.evt.attr_id defaultEntry)
      { s with ancs_notif_attr_list := s.ancs_notif_attr_list.set s.evt.attr_id e }
  | .app =>
      let e := upd (s.ancs_app_attr_list.getD s.evt.attr_id defaultEntry)
      { s with ancs_app_attr_list := s.ancs_app_attr_list.set s.evt.attr_id e }

/-- `all_req_attrs_parsed`. -/
def all_req_attrs_parsed (s : AncsC) : Bool :=
  s.parse_info.expected_number_of_attrs == 0

/-- `attr_is_requested`, applied to the attribute recorded in `evt.attr`. -/
def attr_is_requested (s : AncsC) : Bool := s.curEntry.get

/-- The `bt_gatt_ancs_c_evt_t` snapshot observed by `evt_handler` when the
parser emits an attribute event. -/
def AncsC.mkEvt (s : AncsC) : Evt :=
  .attr { evt_type := s.evt.evt_type, notif_uid := s.evt.notif_uid,
          app_id := s.evt.app_id, attr_id := s.evt.attr_id,
          attr_len := s.evt.attr_len, data := s.curEntry.data }

/-- Set `parse_info.parse_state` (the assignment done by the dispatch loop). -/
def AncsC.setPS (s : AncsC) (st : ParseState) : AncsC :=
  { s with parse_info := { s.parse_info with parse_state := st } }

/-- `command_id_parse`: consumes one byte, returns the next parse state. -/
def command_id_parse (s : AncsC) (b : Nat) : AncsC × ParseState :=
  let pi := { s.parse_info with command_id := b }
  if b = BT_GATT_ANCS_COMMAND_ID_GET_NOTIF_ATTRIBUTES then
    let piN := { pi with p_attr_list := ListSel.notif, nb_of_attr := BT_GATT_ANCS_NB_OF_NOTIF_ATTR }
    let evN := { s.evt with evt_type := EvtType.NOTIF_ATTRIBUTE }
    ({ s with parse_info := piN, evt := evN }, .NOTIF_UID)
  else if b = BT_GATT_ANCS_COMMAND_ID_GET_APP_ATTRIBUTES then
    let piA := { pi with p_attr_list := ListSel.app, nb_of_attr := BT_GATT_ANCS_NB_OF_APP_ATTR }
    let evA := { s.evt with evt_type := EvtType.APP_ATTRIBUTE }
    ({ s with parse_info := piA, evt := evA }, .APP_ID)
  else
    ({ s with parse_info := pi }, .DONE)

/-- `notif_uid_parse`: reads four bytes starting at the current index in a
single `sys_get_le32` and advances the index by 4, regardless of how many
bytes of the record remain. -/
def notif_uid_parse (s : AncsC) (b0 b1 b2 b3 : Nat) : AncsC × ParseState :=
  ({ s with evt := { s.evt with notif_uid := sys_get_le32 b0 b1 b2 b3 } }, .ATTR_ID)

/-- `app_id_parse`: stores the byte at `evt.app_id[current_app_id_index]`
and advances the index while the byte is not NUL.  Note that the index is
neither bounded by the 32-byte array nor reset between responses. -/
def app_id_parse (s : AncsC) (b : Nat) : AncsC × ParseState :=
  let s := { s with evt := { s.evt with app_id :=
    fun j => if j = s.parse_info.current_app_id_index then b else s.evt.app_id j } }
  if b ≠ 0 then
    ({ s with parse_info := { s.parse_info with
        current_app_id_index := s.parse_info.current_app_id_index + 1 } }, .APP_ID)
  else
    (s, .ATTR_ID)

/-- `attr_id_parse`.  (The C also binds `evt.attr.p_attr_data` here; in the
model that binding is the `curEntry`/`writeCur` lookup keyed on
`evt.attr_id`.) -/
def attr_id_parse (s : AncsC) (b : Nat) : AncsC × ParseState :=
  let s := { s with evt := { s.evt with attr_id := b } }
  if s.parse_info.nb_of_attr ≤ b then
    (s, .DONE)
  else if all_req_attrs_parsed s then
    (s, .DONE)
  else
    let s := if attr_is_requested s then
        { s with parse_info := { s.parse_info with
            expected_number_of_attrs := s.parse_info.expected_number_of_attrs - 1 } }
      else s
    (s, .ATTR_LEN1)

/-- `attr_len1_parse`: low byte of the attribute length. -/
def attr_len1_parse (s : AncsC) (b : Nat) : AncsC × ParseState :=
  ({ s with evt := { s.evt with attr_len := b } }, .ATTR_LEN2)

/-- `attr_len2_parse`: or in the high byte, reset the write cursor, and
for a zero-length attribute deliver the event immediately. -/
def attr_len2_parse (s : AncsC) (b : Nat) : AncsC × ParseState × List Evt :=
  let ev := { s.evt with attr_len := s.evt.attr_len ||| (b <<< 8) }
  let pi := { s.parse_info with current_attr_index := 0 }
  let s : AncsC := { s with evt := ev, parse_info := pi }
  if s.evt.attr_len ≠ 0 then
    if s.curEntry.attr_len = 0 ∨ s.curEntry.hasData = false then
      (s, .ATTR_SKIP, [])
    else
      (s, .ATTR_DATA, [])
  else
    let evts := if attr_is_requested s then [s.mkEvt] else []
    if all_req_attrs_parsed s then (s, .DONE, evts) else (s, .ATTR_ID, evts)

/-- `current_attr_index++`. -/
def bumpIdx (s : AncsC) : AncsC :=
  { s with parse_info := { s.parse_info with
      current_attr_index := s.parse_info.current_attr_index + 1 } }

/-- `attr_data_parse`: copy at most one byte, then test the two termination
conditions.  The C compares `current_attr_index` against
`p_attr_list[id].attr_len - 1` with the operands promoted to `int`, so for
a registered length of 0 the comparison is against `-1` and never true;
that comparison is therefore modelled as `current_attr_index + 1 =
attr_len`.  The `Bool` in the result records whether the byte was consumed
(the C only increments `*index` on the copy path). -/
def attr_data_parse (s : AncsC) (b : Nat) : AncsC × ParseState × List Evt × Bool :=
  let step2 := fun (s : AncsC) (consumed : Bool) =>
    if s.parse_info.current_attr_index = s.evt.attr_len ∨
        s.parse_info.current_attr_index + 1 = s.curEntry.attr_len then
      let s := if attr_is_requested s then s.writeCur s.parse_info.current_attr_index 0 else s
      if s.parse_info.current_attr_index < s.evt.attr_len then
        (s, ParseState.ATTR_SKIP, ([] : List Evt), consumed)
      else
        let evts := if attr_is_requested s then [s.mkEvt] else []
        if all_req_attrs_parsed s then (s, ParseState.DONE, evts, consumed)
        else (s, ParseState.ATTR_ID, evts, consumed)
    else
      (s, ParseState.ATTR_DATA, ([] : List Evt), consumed)
  if s.parse_info.current_attr_index < s.curEntry.attr_len ∧
      s.parse_info.current_attr_index < s.evt.attr_len then
    step2 (bumpIdx (s.writeCur s.parse_info.current_attr_index b)) true
  else
    step2 s false

/-- `attr_skip`: advance the cursor without copying; at the end of the
attribute deliver the event if the attribute was requested. -/
def attr_skip (s : AncsC) : AncsC × ParseState × List Evt × Bool :=
  let (s, consumed) :=
    if s.parse_info.current_attr_index < s.evt.attr_len then
      (bumpIdx s, true)
    else (s, false)
  if s.parse_info.current_attr_index = s.evt.attr_len then
    let evts := if attr_is_requested s then [s.mkEvt] else []
    if all_req_attrs_parsed s then (s, .DONE, evts, consumed)
    else (s, .ATTR_ID, evts, consumed)
  else
    (s, .ATTR_SKIP, [], consumed)

/-- `ancs_parse_get_attrs_response`: the per-record dispatch loop.  Returns
the final session, the events delivered to the sink in order, and a flag
that is `false` when a `NOTIF_UID` read ran past the end of the record
(the C then reads out-of-record memory and skips the beginning of the next
record).  The result is `none` when the C loop stops making progress (an
iteration that neither consumes a byte nor changes the state repeats
forever). -/
def ancs_parse_get_attrs_response (s : AncsC) : List Nat → Option (AncsC × List Evt × Bool)
  | [] => some (s, [], true)
  | b :: rest =>
    match s.parse_info.parse_state with
    | .COMMAND_ID =>
        let (s1, st) := command_id_parse s b
        ancs_parse_get_attrs_response (s1.setPS st) rest
    | .NOTIF_UID =>
        -- the C reads 4 bytes in one `sys_get_le32` and advances the index
        -- by 4; when fewer than 4 bytes remain it reads past the record
        -- (modelled with default 0) and the record is exhausted, flagged
        -- `false`.
        match rest with
        | b1 :: b2 :: b3 :: rest2 =>
            let (s1, st) := notif_uid_parse s b b1 b2 b3
            ancs_parse_get_attrs_response (s1.setPS st) rest2
        | [b1, b2] =>
            some (((notif_uid_parse s b b1 b2 0).1).setPS .ATTR_ID, [], false)
        | [b1] =>
            some (((notif_uid_parse s b b1 0 0).1).setPS .ATTR_ID, [], false)
        | [] =>
            some (((notif_uid_parse s b 0 0 0).1).setPS .ATTR_ID, [], false)
    | .APP_ID =>
        let (s1, st) := app_id_parse s b
        ancs_parse_get_attrs_response (s1.setPS st) rest
    | .ATTR_ID =>
        let (s1, st) := attr_id_parse s b
        ancs_parse_get_attrs_response (s1.setPS st) rest
    | .ATTR_LEN1 =>
        let (s1, st) := attr_len1_parse s b
        ancs_parse_get_attrs_response (s1.setPS st) rest
    | .ATTR_LEN2 =>
        let (s1, st, evts) := attr_len2_parse s b
        (ancs_parse_get_attrs_response (s1.setPS st) rest).map
          (fun r => (r.1, evts ++ r.2.1, r.2.2))
    | .ATTR_DATA =>
        let (s1, st, evts, consumed) := attr_data_parse s b
        if consumed then
          (ancs_parse_get_attrs_response (s1.setPS st) rest).map
            (fun r => (r.1, evts ++ r.2.1, r.2.2))
        else
          -- the loop index was not advanced, so the C re-runs the switch on
          -- the same byte.  When the handler made progress the new state is
          -- ATTR_ID or DONE; in every other case the C repeats an identical
          -- iteration forever, reported as `none`.
          match st with
          | .ATTR_ID =>
              let (s2, st2) := attr_id_parse (s1.setPS .ATTR_ID) b
              (ancs_parse_get_attrs_response (s2.setPS st2) rest).map
                (fun r => (r.1, evts ++ r.2.1, r.2.2))
          | .DONE => some (s1.setPS .DONE, evts, true)
          | _ => none
    | .ATTR_SKIP =>
        let (s1, st, evts, consumed) := attr_skip s
        if consumed then
          (ancs_parse_get_attrs_response (s1.setPS st) rest).map
            (fun r => (r.1, evts ++ r.2.1, r.2.2))
        else
          match st with
          | .ATTR_ID =>
              let (s2, st2) := attr_id_parse (s1.setPS .ATTR_ID) b
              (ancs_parse_get_attrs_response (s2.setPS st2) rest).map
                (fun r => (r.1, evts ++ r.2.1, r.2.2))
          | .DONE => some (s1.setPS .DONE, evts, true)
          | _ => none
    | .DONE =>
        -- `index = hvx_data_len`: the rest of the record is discarded.
        some (s, [], true)

/-- Feed a sequence of Data Source records to the parser in arrival order
(each GATT notification is one call to `ancs_parse_get_attrs_response`). -/
def feed_records (s : AncsC) : List (List Nat) → Option (AncsC × List Evt × Bool)
  | [] => some (s, [], true)
  | r :: rs =>
    (ancs_parse_get_attrs_response s r).bind fun p =>
      (feed_records p.1 rs).map fun q => (q.1, p.2.1 ++ q.2.1, p.2.2 && q.2.2)

/-! ## Basic facts about the parser loop -/

@[simp] theorem setPS_parse_state (s : AncsC) (st : ParseState) :
    (s.setPS st).parse_info.parse_state = st := rfl

@[simp] theorem setPS_nb (s : AncsC) (st : ParseState) :
    (s.setPS st).parse_info.nb_of_attr = s.parse_info.nb_of_attr := rfl

@[simp] theorem setPS_expected (s : AncsC) (st : ParseState) :
    (s.setPS st).parse_info.expected_number_of_attrs =
      s.parse_info.expected_number_of_attrs := rfl

@[simp] theorem setPS_current_attr_index (s : AncsC) (st : ParseState) :
    (s.setPS st).parse_info.current_attr_index = s.parse_info.current_attr_index := rfl

@[simp] theorem setPS_evt (s : AncsC) (st : ParseState) : (s.setPS st).evt = s.evt := rfl

theorem run_nil (s : AncsC) : ancs_parse_get_attrs_response s [] = some (s, [], true) := rfl

/-- One unfolding of the dispatch loop on a non-empty record (definitional). -/
theorem run_cons (s : AncsC) (b : Nat) (rest : List Nat) :
    ancs_parse_get_attrs_response s (b :: rest) =
      match s.parse_info.parse_state with
      | .COMMAND_ID =>
          let (s1, st) := command_id_parse s b
          ancs_parse_get_attrs_response (s1.setPS st) rest
      | .NOTIF_UID =>
          match rest with
          | b1 :: b2 :: b3 :: rest2 =>
              let (s1, st) := notif_uid_parse s b b1 b2 b3
              ancs_parse_get_attrs_response (s1.setPS st) rest2
          | [b1, b2] =>
              some (((notif_uid_parse s b b1 b2 0).1).setPS .ATTR_ID, [], false)
          | [b1] =>
              some (((notif_uid_parse s b b1 0 0).1).setPS .ATTR_ID, [], false)
          | [] =>
              some (((notif_uid_parse s b 0 0 0).1).setPS .ATTR_ID, [], false)
      | .APP_ID =>
          let (s1, st) := app_id_parse s b
          ancs_parse_get_attrs_response (s1.setPS st) rest
      | .ATTR_ID =>
          let (s1, st) := attr_id_parse s b
          ancs_parse_get_attrs_response (s1.setPS st) rest
      | .ATTR_LEN1 =>
          let (s1, st) := attr_len1_parse s b
          ancs_parse_get_attrs_response (s1.setPS st) rest
      | .ATTR_LEN2 =>
          let (s1, st, evts) := attr_len2_parse s b
          (ancs_parse_get_attrs_response (s1.setPS st) rest).map
            (fun r => (r.1, evts ++ r.2.1, r.2.2))
      | .ATTR_DATA =>
          let (s1, st, evts, consumed) := attr_data_parse s b
          if consumed then
            (ancs_parse_get_attrs_response (s1.setPS st) rest).map
              (fun r => (r.1, evts ++ r.2.1, r.2.2))
          else
            match st with
            | .ATTR_ID =>
                let (s2, st2) := attr_id_parse (s1.setPS .ATTR_ID) b
                (ancs_parse_get_attrs_response (s2.setPS st2) rest).map
                  (fun r => (r.1, evts ++ r.2.1, r.2.2))
            | .DONE => some (s1.setPS .DONE, evts, true)
            | _ => none
      | .ATTR_SKIP =>
          let (s1, st, evts, consumed) := attr_skip s
          if consumed then
            (ancs_parse_get_attrs_response (s1.setPS st) rest).map
              (fun r => (r.1, evts ++ r.2.1, r.2.2))
          else
            match st with
            | .ATTR_ID =>
                let (s2, st2) := attr_id_parse (s1.setPS .ATTR_ID) b
                (ancs_parse_get_attrs_response (s2.setPS st2) rest).map
                  (fun r => (r.1, evts ++ r.2.1, r.2.2))
            | .DONE => some (s1.setPS .DONE, evts, true)
            | _ => none
      | .DONE => some (s, [], true) := by
  obtain ⟨nl, al, pi, ev, sem, cp, nreq⟩ := s
  obtain ⟨sel, nb, exp, ps, cid, cai, appi⟩ := pi
  cases ps <;>
    first
      | rfl
      | rcases rest with _ | ⟨b1, _ | ⟨b2, _ | ⟨b3, rest2⟩⟩⟩ <;> rfl

theorem run_done (s : AncsC) (r : List Nat) (hps : s.parse_info.parse_state = .DONE) :
    ancs_parse_get_attrs_response s r = some (s, [], true) := by
  cases r with
  | nil => rfl
  | cons b rest => rw [run_cons, hps]

theorem run_command_id (s : AncsC) (b : Nat) (rest : List Nat)
    (hps : s.parse_info.parse_state = .COMMAND_ID) :
    ancs_parse_get_attrs_response s (b :: rest) =
      ancs_parse_get_attrs_response
        ((command_id_parse s b).1.setPS (command_id_parse s b).2) rest := by
  rw [run_cons, hps]

theorem run_notif_uid (s : AncsC) (b b1 b2 b3 : Nat) (rest2 : List Nat)
    (hps : s.parse_info.parse_state = .NOTIF_UID) :
    ancs_parse_get_attrs_response s (b :: b1 :: b2 :: b3 :: rest2) =
      ancs_parse_get_attrs_response
        ((notif_uid_parse s b b1 b2 b3).1.setPS .ATTR_ID) rest2 := by
  rw [run_cons, hps]
  rfl

theorem run_app_id (s : AncsC) (b : Nat) (rest : List Nat)
    (hps : s.parse_info.parse_state = .APP_ID) :
    ancs_parse_get_attrs_response s (b :: rest) =
      ancs_parse_get_attrs_response
        ((app_id_parse s b).1.setPS (app_id_parse s b).2) rest := by
  rw [run_cons, hps]

theorem run_attr_id (s : AncsC) (b : Nat) (rest : List Nat)
    (hps : s.parse_info.parse_state = .ATTR_ID) :
    ancs_parse_get_attrs_response s (b :: rest) =
      ancs_parse_get_attrs_response
        ((attr_id_parse s b).1.setPS (attr_id_parse s b).2) rest := by
  rw [run_cons, hps]

theorem run_attr_len1 (s : AncsC) (b : Nat) (rest : List Nat)
    (hps : s.parse_info.parse_state = .ATTR_LEN1) :
    ancs_parse_get_attrs_response s (b :: rest) =
      ancs_parse_get_attrs_response
        ((attr_len1_parse s b).1.setPS (attr_len1_parse s b).2) rest := by
  rw [run_cons, hps]

theorem run_attr_len2 (s : AncsC) (b : Nat) (rest : List Nat)
    (hps : s.parse_info.parse_state = .ATTR_LEN2)
    (s1 : AncsC) (st : ParseState) (evts : List Evt)
    (h : attr_len2_parse s b = (s1, st, evts)) :
    ancs_parse_get_attrs_response s (b :: rest) =
      (ancs_parse_get_attrs_response (s1.setPS st) rest).map
        (fun r => (r.1, evts ++ r.2.1, r.2.2)) := by
  rw [run_cons, hps, h]

theorem run_attr_data (s : AncsC) (b : Nat) (rest : List Nat)
    (hps : s.parse_info.parse_state = .ATTR_DATA)
    (s1 : AncsC) (st : ParseState) (evts : List Evt)
    (h : attr_data_parse s b = (s1, st, evts, true)) :
    ancs_parse_get_attrs_response s (b :: rest) =
      (ancs_parse_get_attrs_response (s1.setPS st) rest).map
        (fun r => (r.1, evts ++ r.2.1, r.2.2)) := by
  rw [run_cons, hps, h]
  rfl

theorem run_attr_skip (s : AncsC) (b : Nat) (rest : List Nat)
    (hps : s.parse_info.parse_state = .ATTR_SKIP)
    (s1 : AncsC) (st : ParseState) (evts : List Evt)
    (h : attr_skip s = (s1, st, evts, true)) :
    ancs_parse_get_attrs_response s (b :: rest) =
      (ancs_parse_get_attrs_response (s1.setPS st) rest).map
        (fun r => (r.1, evts ++ r.2.1, r.2.2)) := by
  rw [run_cons, hps, h]
  rfl


theorem run_notif_uid_short2 (s : AncsC) (b b1 b2 : Nat)
    (hps : s.parse_info.parse_state = .NOTIF_UID) :
    ancs_parse_get_attrs_response s [b, b1, b2] =
      some (((notif_uid_parse s b b1 b2 0).1).setPS .ATTR_ID, [], false) := by
  rw [run_cons, hps]

theorem run_notif_uid_short1 (s : AncsC) (b b1 : Nat)
    (hps : s.parse_info.parse_state = .NOTIF_UID) :
    ancs_parse_get_attrs_response s [b, b1] =
      some (((notif_uid_parse s b b1 0 0).1).setPS .ATTR_ID, [], false) := by
  rw [run_cons, hps]

theorem run_notif_uid_short0 (s : AncsC) (b : Nat)
    (hps : s.parse_info.parse_state = .NOTIF_UID) :
    ancs_parse_get_attrs_response s [b] =
      some (((notif_uid_parse s b 0 0 0).1).setPS .ATTR_ID, [], false) := by
  rw [run_cons, hps]

theorem run_attr_data_stall_attr_id (s : AncsC) (b : Nat) (rest : List Nat)
    (hps : s.parse_info.parse_state = .ATTR_DATA)
    (s1 : AncsC) (evts : List Evt)
    (h : attr_data_parse s b = (s1, .ATTR_ID, evts, false)) :
    ancs_parse_get_attrs_response s (b :: rest) =
      (ancs_parse_get_attrs_response
        (((attr_id_parse (s1.setPS .ATTR_ID) b).1).setPS
          (attr_id_parse (s1.setPS .ATTR_ID) b).2) rest).map
        (fun r => (r.1, evts ++ r.2.1, r.2.2)) := by
  rw [run_cons, hps, h]
  rfl

theorem run_attr_data_stall_done (s : AncsC) (b : Nat) (rest : List Nat)
    (hps : s.parse_info.parse_state = .ATTR_DATA)
    (s1 : AncsC) (evts : List Evt)
    (h : attr_data_parse s b = (s1, .DONE, evts, false)) :
    ancs_parse_get_attrs_response s (b :: rest) = some (s1.setPS .DONE, evts, true) := by
  rw [run_cons, hps, h]
  rfl

theorem run_attr_data_stall_none (s : AncsC) (b : Nat) (rest : List Nat)
    (hps : s.parse_info.parse_state = .ATTR_DATA)
    (s1 : AncsC) (st : ParseState) (evts : List Evt)
    (h : attr_data_parse s b = (s1, st, evts, false))
    (h1 : st ≠ .ATTR_ID) (h2 : st ≠ .DONE) :
    ancs_parse_get_attrs_response s (b :: rest) = none := by
  rw [run_cons, hps, h]
  cases st <;> first | rfl | exact absurd rfl h1 | exact absurd rfl h2

theorem run_attr_skip_stall_attr_id (s : AncsC) (b : Nat) (rest : List Nat)
    (hps : s.parse_info.parse_state = .ATTR_SKIP)
    (s1 : AncsC) (evts : List Evt)
    (h : attr_skip s = (s1, .ATTR_ID, evts, false)) :
    ancs_parse_get_attrs_response s (b :: rest) =
      (ancs_parse_get_attrs_response
        (((attr_id_parse (s1.setPS .ATTR_ID) b).1).setPS
          (attr_id_parse (s1.setPS .ATTR_ID) b).2) rest).map
        (fun r => (r.1, evts ++ r.2.1, r.2.2)) := by
  rw [run_cons, hps, h]
  rfl

theorem run_attr_skip_stall_done (s : AncsC) (b : Nat) (rest : List Nat)
    (hps : s.parse_info.parse_state = .ATTR_SKIP)
    (s1 : AncsC) (evts : List Evt)
    (h : attr_skip s = (s1, .DONE, evts, false)) :
    ancs_parse_get_attrs_response s (b :: rest) = some (s1.setPS .DONE, evts, true) := by
  rw [run_cons, hps, h]
  rfl

theorem run_attr_skip_stall_none (s : AncsC) (b : Nat) (rest : List Nat)
    (hps : s.parse_info.parse_state = .ATTR_SKIP)
    (s1 : AncsC) (st : ParseState) (evts : List Evt)
    (h : attr_skip s = (s1, st, evts, false))
    (h1 : st ≠ .ATTR_ID) (h2 : st ≠ .DONE) :
    ancs_parse_get_attrs_response s (b :: rest) = none := by
  rw [run_cons, hps, h]
  cases st <;> first | rfl | exact absurd rfl h1 | exact absurd rfl h2

/-- Re-entrancy: feeding `r1 ++ r2` equals feeding `r1` then `r2`, provided
the run over `r1` neither diverges nor overruns the record inside a
`NOTIF_UID` read. -/
theorem run_append (s : AncsC) (r1 : List Nat) :
    ∀ (s1 : AncsC) (e1 : List Evt),
      ancs_parse_get_attrs_response s r1 = some (s1, e1, true) →
      ∀ (r2 : List Nat),
        ancs_parse_get_attrs_response s (r1 ++ r2) =
          (ancs_parse_get_attrs_response s1 r2).map
            (fun q => (q.1, e1 ++ q.2.1, q.2.2)) := by
  induction s, r1 using ancs_parse_get_attrs_response.induct with
  | case1 s =>
      intro s1 e1 h r2
      rw [run_nil] at h
      simp only [Option.some.injEq, Prod.mk.injEq] at h
      obtain ⟨rfl, rfl, -⟩ := h
      rw [List.nil_append]
      cases hr : ancs_parse_get_attrs_response s r2 with
      | none => rfl
      | some q => rfl
  | case2 s b rest hps s1' st heq ih =>
      intro s1 e1 h r2
      have hstep := run_command_id s b rest hps
      rw [heq] at hstep
      rw [hstep] at h
      have hstep2 := run_command_id s b (rest ++ r2) hps
      rw [heq] at hstep2
      exact hstep2.trans (ih s1 e1 h r2)
  | case3 s b hps b1 b2 b3 rest2 s1' st heq ih =>
      intro s1 e1 h r2
      have hst : st = ParseState.ATTR_ID := (congrArg Prod.snd heq).symm.trans rfl
      subst hst
      have hstep := run_notif_uid s b b1 b2 b3 rest2 hps
      rw [heq] at hstep
      rw [hstep] at h
      have hstep2 := run_notif_uid s b b1 b2 b3 (rest2 ++ r2) hps
      rw [heq] at hstep2
      exact hstep2.trans (ih s1 e1 h r2)
  | case4 s b hps b1 b2 =>
      intro s1 e1 h r2
      rw [run_notif_uid_short2 s b b1 b2 hps] at h
      simp at h
  | case5 s b hps b1 =>
      intro s1 e1 h r2
      rw [run_notif_uid_short1 s b b1 hps] at h
      simp at h
  | case6 s b hps =>
      intro s1 e1 h r2
      rw [run_notif_uid_short0 s b hps] at h
      simp at h
  | case7 s b rest hps s1' st heq ih =>
      intro s1 e1 h r2
      have hstep := run_app_id s b rest hps
      rw [heq] at hstep
      rw [hstep] at h
      have hstep2 := run_app_id s b (rest ++ r2) hps
      rw [heq] at hstep2
      exact hstep2.trans (ih s1 e1 h r2)
  | case8 s b rest hps s1' st heq ih =>
      intro s1 e1 h r2
      have hstep := run_attr_id s b rest hps
      rw [heq] at hstep
      rw [hstep] at h
      have hstep2 := run_attr_id s b (rest ++ r2) hps
      rw [heq] at hstep2
      exact hstep2.trans (ih s1 e1 h r2)
  | case9 s b rest hps s1' st heq ih =>
      intro s1 e1 h r2
      have hstep := run_attr_len1 s b rest hps
      rw [heq] at hstep
      rw [hstep] at h
      have hstep2 := run_attr_len1 s b (rest ++ r2) hps
      rw [heq] at hstep2
      exact hstep2.trans (ih s1 e1 h r2)
  | case10 s b rest hps s1' st evts heq ih =>
      intro s1 e1 h r2
      rw [run_attr_len2 s b rest hps s1' st evts heq] at h
      cases hq : ancs_parse_get_attrs_response (s1'.setPS st) rest with
      | none => rw [hq] at h; cases h
      | some q =>
          obtain ⟨qs, qe, qok⟩ := q
          rw [hq] at h
          simp only [Option.map_some', Option.some.injEq, Prod.mk.injEq] at h
          obtain ⟨rfl, rfl, rfl⟩ := h
          rw [show (b :: rest) ++ r2 = b :: (rest ++ r2) from rfl,
            run_attr_len2 s b (rest ++ r2) hps s1' st evts heq,
            ih qs qe hq r2]
          cases hr : ancs_parse_get_attrs_response qs r2 with
          | none => rfl
          | some w => simp [List.append_assoc]
  | case11 s b rest hps s1' st evts heq ih =>
      intro s1 e1 h r2
      rw [run_attr_data s b rest hps s1' st evts heq] at h
      cases hq : ancs_parse_get_attrs_response (s1'.setPS st) rest with
      | none => rw [hq] at h; cases h
      | some q =>
          obtain ⟨qs, qe, qok⟩ := q
          rw [hq] at h
          simp only [Option.map_some', Option.some.injEq, Prod.mk.injEq] at h
          obtain ⟨rfl, rfl, rfl⟩ := h
          rw [show (b :: rest) ++ r2 = b :: (rest ++ r2) from rfl,
            run_attr_data s b (rest ++ r2) hps s1' st evts heq,
            ih qs qe hq r2]
          cases hr : ancs_parse_get_attrs_response qs r2 with
          | none => rfl
          | some w => simp [List.append_assoc]
  | case12 s b rest hps s1' evts consumed hcons s1'' st heq2 heq ih =>
      intro s1 e1 h r2
      have hc : consumed = false := by
        cases consumed
        · rfl
        · exact absurd rfl hcons
      subst hc
      have hstep := run_attr_data_stall_attr_id s b rest hps s1' evts heq
      rw [heq2] at hstep
      rw [hstep] at h
      cases hq : ancs_parse_get_attrs_response (s1''.setPS st) rest with
      | none => rw [hq] at h; cases h
      | some q =>
          obtain ⟨qs, qe, qok⟩ := q
          rw [hq] at h
          simp only [Option.map_some', Option.some.injEq, Prod.mk.injEq] at h
          obtain ⟨rfl, rfl, rfl⟩ := h
          have hstep2 := run_attr_data_stall_attr_id s b (rest ++ r2) hps s1' evts heq
          rw [heq2] at hstep2
          rw [show (b :: rest) ++ r2 = b :: (rest ++ r2) from rfl,
            hstep2, ih qs qe hq r2]
          cases hr : ancs_parse_get_attrs_response qs r2 with
          | none => rfl
          | some w => simp [List.append_assoc]
  | case13 s b rest hps s1' evts consumed hcons heq =>
      intro s1 e1 h r2
      have hc : consumed = false := by
        cases consumed
        · rfl
        · exact absurd rfl hcons
      subst hc
      rw [run_attr_data_stall_done s b rest hps s1' evts heq] at h
      simp only [Option.some.injEq, Prod.mk.injEq] at h
      obtain ⟨rfl, rfl, -⟩ := h
      rw [show (b :: rest) ++ r2 = b :: (rest ++ r2) from rfl,
        run_attr_data_stall_done s b (rest ++ r2) hps s1' evts heq,
        run_done _ r2 (by simp)]
      simp
  | case14 s b rest hps s1' st evts consumed heq hcons h1 h2 =>
      intro s1 e1 h r2
      have hc : consumed = false := by
        cases consumed
        · rfl
        · exact absurd rfl hcons
      subst hc
      rw [run_attr_data_stall_none s b rest hps s1' st evts heq
        (fun hh => h1 hh) (fun hh => h2 hh)] at h
      cases h
  | case15 s b rest hps s1' st evts heq ih =>
      intro s1 e1 h r2
      rw [run_attr_skip s b rest hps s1' st evts heq] at h
      cases hq : ancs_parse_get_attrs_response (s1'.setPS st) rest with
      | none => rw [hq] at h; cases h
      | some q =>
          obtain ⟨qs, qe, qok⟩ := q
          rw [hq] at h
          simp only [Option.map_some', Option.some.injEq, Prod.mk.injEq] at h
          obtain ⟨rfl, rfl, rfl⟩ := h
          rw [show (b :: rest) ++ r2 = b :: (rest ++ r2) from rfl,
            run_attr_skip s b (rest ++ r2) hps s1' st evts heq,
            ih qs qe hq r2]
          cases hr : ancs_parse_get_attrs_response qs r2 with
          | none => rfl
          | some w => simp [List.append_assoc]
  | case16 s b rest hps s1' evts consumed hcons s1'' st heq2 heq ih =>
      intro s1 e1 h r2
      have hc : consumed = false := by
        cases consumed
        · rfl
        · exact absurd rfl hcons
      subst hc
      have hstep := run_attr_skip_stall_attr_id s b rest hps s1' evts heq
      rw [heq2] at hstep
      rw [hstep] at h
      cases hq : ancs_parse_get_attrs_response (s1''.setPS st) rest with
      | none => rw [hq] at h; cases h
      | some q =>
          obtain ⟨qs, qe, qok⟩ := q
          rw [hq] at h
          simp only [Option.map_some', Option.some.injEq, Prod.mk.injEq] at h
          obtain ⟨rfl, rfl, rfl⟩ := h
          have hstep2 := run_attr_skip_stall_attr_id s b (rest ++ r2) hps s1' evts heq
          rw [heq2] at hstep2
          rw [show (b :: rest) ++ r2 = b :: (rest ++ r2) from rfl,
            hstep2, ih qs qe hq r2]
          cases hr : ancs_parse_get_attrs_response qs r2 with
          | none => rfl
          | some w => simp [List.append_assoc]
  | case17 s b rest hps s1' evts consumed hcons heq =>
      intro s1 e1 h r2
      have hc : consumed = false := by
        cases consumed
        · rfl
        · exact absurd rfl hcons
      subst hc
      rw [run_attr_skip_stall_done s b rest hps s1' evts heq] at h
      simp only [Option.some.injEq, Prod.mk.injEq] at h
      obtain ⟨rfl, rfl, -⟩ := h
      rw [show (b :: rest) ++ r2 = b :: (rest ++ r2) from rfl,
        run_attr_skip_stall_done s b (rest ++ r2) hps s1' evts heq,
        run_done _ r2 (by simp)]
      simp
  | case18 s b rest hps s1' st evts consumed heq hcons h1 h2 =>
      intro s1 e1 h r2
      have hc : consumed = false := by
        cases consumed
        · rfl
        · exact absurd rfl hcons
      subst hc
      rw [run_attr_skip_stall_none s b rest hps s1' st evts heq
        (fun hh => h1 hh) (fun hh => h2 hh)] at h
      cases h
  | case19 s b rest hps =>
      intro s1 e1 h r2
      rw [run_done s (b :: rest) hps] at h
      simp only [Option.some.injEq, Prod.mk.injEq] at h
      obtain ⟨rfl, rfl, -⟩ := h
      rw [show (b :: rest) ++ r2 = b :: (rest ++ r2) from rfl,
        run_done s (b :: (rest ++ r2)) hps, run_done s r2 hps]
      simp


/-- Feeding a partition of a byte sequence record-by-record equals feeding
the whole sequence as one record, when no record of the partition diverges
or ends inside a `NOTIF_UID` read. -/
theorem feed_records_join (P : List (List Nat)) :
    ∀ (s s1 : AncsC) (e1 : List Evt),
      feed_records s P = some (s1, e1, true) →
      ancs_parse_get_attrs_response s P.flatten = some (s1, e1, true) := by
  induction P with
  | nil =>
      intro s s1 e1 h
      simp only [feed_records] at h
      simp only [Option.some.injEq, Prod.mk.injEq] at h
      obtain ⟨rfl, rfl, -⟩ := h
      rfl
  | cons r rs ih =>
      intro s s1 e1 h
      simp only [feed_records] at h
      cases hr : ancs_parse_get_attrs_response s r with
      | none => rw [hr] at h; cases h
      | some p =>
          obtain ⟨ps, pe, pok⟩ := p
          rw [hr] at h
          simp only [Option.some_bind] at h
          cases hq : feed_records ps rs with
          | none => rw [hq] at h; cases h
          | some q =>
              obtain ⟨qs, qe, qok⟩ := q
              rw [hq] at h
              simp only [Option.map_some', Option.some.injEq, Prod.mk.injEq] at h
              obtain ⟨rfl, rfl, hok⟩ := h
              have hok1 : pok = true := by
                cases pok
                · simp at hok
                · rfl
              have hok2 : qok = true := by
                cases qok
                · rw [hok1] at hok; simp at hok
                · rfl
              subst hok1
              subst hok2
              have hjoin := ih ps qs qe hq
              exact (run_append s r ps pe hr (rs.flatten)).trans (by rw [hjoin]; rfl)

end Ancs

namespace Ancs

/-! ## Well-formed Get-Notification-Attributes responses -/

theorem getD_set_self {α : Type} (l : List α) (i : Nat) (e d : α) (h : i < l.length) :
    (l.set i e).getD i d = e := by
  rw [List.getD_eq_getElem?_getD, List.getElem?_set_eq_of_lt e h]
  rfl

theorem getD_set_ne {α : Type} (l : List α) (i j : Nat) (e d : α) (h : i ≠ j) :
    (l.set i e).getD j d = l.getD j d := by
  rw [List.getD_eq_getElem?_getD, List.getD_eq_getElem?_getD]
  have := List.get?_set_ne e l h
  simp only [List.get?_eq_getElem?] at this
  rw [this]

end Ancs

namespace Ancs

/-- One attribute of a Get-Notification-Attributes response on the wire:
`id ‖ len(le16) ‖ data`. -/
structure WireAttr where
  id : Nat
  data : List Nat

/-- Wire encoding of one attribute block. -/
def attrBlock (a : WireAttr) : List Nat := a.id :: (le16 a.data.length ++ a.data)

/-- A well-formed Get-Notification-Attributes response:
`CommandID(0) ‖ uid(le32) ‖ blocks`. -/
def mkNotifResponse (uid : Nat) (attrs : List WireAttr) : List Nat :=
  0 :: (le32 uid ++ (attrs.map attrBlock).flatten)

/-- Two tables with identical registration metadata (`get`, `attr_len`,
`p_attr_data != NULL`); only buffer contents may differ. -/
def sameShape (t1 t2 : List AttrListEntry) : Prop :=
  t1.length = t2.length ∧ ∀ i : Nat,
    (t1.getD i defaultEntry).get = (t2.getD i defaultEntry).get ∧
    (t1.getD i defaultEntry).attr_len = (t2.getD i defaultEntry).attr_len ∧
    (t1.getD i defaultEntry).hasData = (t2.getD i defaultEntry).hasData

theorem sameShape_refl (t : List AttrListEntry) : sameShape t t :=
  ⟨rfl, fun _ => ⟨rfl, rfl, rfl⟩⟩

/-- The state context maintained while parsing a notification-attributes
response body: the notification table is bound, `nb_of_attr` is 8, the
event carries the decoded uid, and the table keeps the registration shape
of `tbl`. -/
structure NRun (uid : Nat) (appFn : Nat → Nat) (tbl : List AttrListEntry) (s : AncsC) : Prop where
  sel : s.parse_info.p_attr_list = .notif
  nb : s.parse_info.nb_of_attr = 8
  ety : s.evt.evt_type = .NOTIF_ATTRIBUTE
  uid_eq : s.evt.notif_uid = uid
  app_eq : s.evt.app_id = appFn
  len8 : s.ancs_notif_attr_list.length = 8
  shape : sameShape tbl s.ancs_notif_attr_list

/-- A buffer store at offset `i`. -/
def wcData (e : AttrListEntry) (i v : Nat) : AttrListEntry :=
  { e with data := fun j => if j = i then v else e.data j }

/-- `writeCur` on a notification-bound state, spelled out. -/
theorem writeCur_notif (s : AncsC) (i v : Nat)
    (hsel : s.parse_info.p_attr_list = .notif) :
    s.writeCur i v =
      { s with ancs_notif_attr_list := s.ancs_notif_attr_list.set s.evt.attr_id (wcData (s.ancs_notif_attr_list.getD s.evt.attr_id defaultEntry) i v) } := by
  unfold AncsC.writeCur wcData
  rw [hsel]

end Ancs

namespace Ancs

theorem writeCur_parse_info (s : AncsC) (i v : Nat) :
    (s.writeCur i v).parse_info = s.parse_info := by
  unfold AncsC.writeCur
  split <;> rfl

theorem writeCur_evt (s : AncsC) (i v : Nat) : (s.writeCur i v).evt = s.evt := by
  unfold AncsC.writeCur
  split <;> rfl

theorem curEntry_notif (s : AncsC) (hsel : s.parse_info.p_attr_list = .notif) :
    s.curEntry = s.ancs_notif_attr_list.getD s.evt.attr_id defaultEntry := by
  unfold AncsC.curEntry AncsC.attrList
  rw [hsel]

theorem writeCur_notif_list (s : AncsC) (i v : Nat)
    (hsel : s.parse_info.p_attr_list = .notif) :
    (s.writeCur i v).ancs_notif_attr_list =
      s.ancs_notif_attr_list.set s.evt.attr_id
        (wcData (s.ancs_notif_attr_list.getD s.evt.attr_id defaultEntry) i v) := by
  rw [writeCur_notif s i v hsel]

theorem writeCur_curEntry_notif (s : AncsC) (i v : Nat)
    (hsel : s.parse_info.p_attr_list = .notif)
    (hlt : s.evt.attr_id < s.ancs_notif_attr_list.length) :
    (s.writeCur i v).curEntry =
      wcData (s.ancs_notif_attr_list.getD s.evt.attr_id defaultEntry) i v := by
  have h1 : (s.writeCur i v).parse_info.p_attr_list = .notif := by
    rw [writeCur_parse_info]; exact hsel
  rw [curEntry_notif _ h1, writeCur_evt, writeCur_notif_list s i v hsel,
    getD_set_self _ _ _ _ hlt]

theorem bumpIdx_sel (s : AncsC) : (bumpIdx s).parse_info.p_attr_list = s.parse_info.p_attr_list := rfl

theorem bumpIdx_evt (s : AncsC) : (bumpIdx s).evt = s.evt := rfl

theorem bumpIdx_idx (s : AncsC) :
    (bumpIdx s).parse_info.current_attr_index = s.parse_info.current_attr_index + 1 := rfl

theorem bumpIdx_notif_list (s : AncsC) :
    (bumpIdx s).ancs_notif_attr_list = s.ancs_notif_attr_list := rfl

theorem bumpIdx_curEntry (s : AncsC) : (bumpIdx s).curEntry = s.curEntry := by
  unfold AncsC.curEntry AncsC.attrList bumpIdx
  rfl

/-- `writeCur` on an app-bound state, spelled out. -/
theorem writeCur_app (s : AncsC) (i v : Nat)
    (hsel : s.parse_info.p_attr_list = .app) :
    s.writeCur i v =
      { s with ancs_app_attr_list := s.ancs_app_attr_list.set s.evt.attr_id (wcData (s.ancs_app_attr_list.getD s.evt.attr_id defaultEntry) i v) } := by
  unfold AncsC.writeCur wcData
  rw [hsel]

theorem curEntry_app (s : AncsC) (hsel : s.parse_info.p_attr_list = .app) :
    s.curEntry = s.ancs_app_attr_list.getD s.evt.attr_id defaultEntry := by
  unfold AncsC.curEntry AncsC.attrList
  rw [hsel]

theorem writeCur_app_list (s : AncsC) (i v : Nat)
    (hsel : s.parse_info.p_attr_list = .app) :
    (s.writeCur i v).ancs_app_attr_list =
      s.ancs_app_attr_list.set s.evt.attr_id
        (wcData (s.ancs_app_attr_list.getD s.evt.attr_id defaultEntry) i v) := by
  rw [writeCur_app s i v hsel]

theorem getD_set_wcData {l : List AttrListEntry} {i : Nat} {e : AttrListEntry} {iv v : Nat}
    (he : e = l.getD i defaultEntry) :
    ((l.set i (wcData e iv v)).getD i defaultEntry).get = (l.getD i defaultEntry).get ∧
    ((l.set i (wcData e iv v)).getD i defaultEntry).attr_len = (l.getD i defaultEntry).attr_len ∧
    ((l.set i (wcData e iv v)).getD i defaultEntry).hasData = (l.getD i defaultEntry).hasData := by
  by_cases hlt : i < l.length
  · rw [getD_set_self _ _ _ _ hlt, he]
    exact ⟨rfl, rfl, rfl⟩
  · rw [List.set_eq_of_length_le (Nat.le_of_not_lt hlt)]
    exact ⟨rfl, rfl, rfl⟩

/-- Stores preserve the registration shape of the current entry. -/
theorem writeCur_curEntry_shape (s : AncsC) (i v : Nat) :
    (s.writeCur i v).curEntry.get = s.curEntry.get ∧
    (s.writeCur i v).curEntry.attr_len = s.curEntry.attr_len ∧
    (s.writeCur i v).curEntry.hasData = s.curEntry.hasData := by
  cases hsel : s.parse_info.p_attr_list with
  | notif =>
      have h1 : (s.writeCur i v).parse_info.p_attr_list = ListSel.notif := by
        rw [writeCur_parse_info]; exact hsel
      rw [curEntry_notif _ h1, curEntry_notif _ hsel, writeCur_evt,
        writeCur_notif_list s i v hsel]
      exact getD_set_wcData rfl
  | app =>
      have h1 : (s.writeCur i v).parse_info.p_attr_list = ListSel.app := by
        rw [writeCur_parse_info]; exact hsel
      rw [curEntry_app _ h1, curEntry_app _ hsel, writeCur_evt,
        writeCur_app_list s i v hsel]
      exact getD_set_wcData rfl

theorem attr_is_requested_writeCur (s : AncsC) (i v : Nat) :
    attr_is_requested (s.writeCur i v) = attr_is_requested s := by
  unfold attr_is_requested
  exact (writeCur_curEntry_shape s i v).1

theorem all_req_writeCur (s : AncsC) (i v : Nat) :
    all_req_attrs_parsed (s.writeCur i v) = all_req_attrs_parsed s := by
  unfold all_req_attrs_parsed
  rw [writeCur_parse_info]

theorem attr_is_requested_bumpIdx (s : AncsC) :
    attr_is_requested (bumpIdx s) = attr_is_requested s := by
  unfold attr_is_requested
  rw [bumpIdx_curEntry]

theorem all_req_bumpIdx (s : AncsC) :
    all_req_attrs_parsed (bumpIdx s) = all_req_attrs_parsed s := rfl

end Ancs

namespace Ancs

theorem mkEvt_eq (s : AncsC) :
    s.mkEvt = Evt.attr ⟨s.evt.evt_type, s.evt.notif_uid, s.evt.app_id,
      s.evt.attr_id, s.evt.attr_len, s.curEntry.data⟩ := rfl

/-- `attr_data_parse` when a byte is copied and neither termination
condition fires. -/
theorem attr_data_parse_copy_cont (s : AncsC) (b : Nat)
    (hc1 : s.parse_info.current_attr_index < s.curEntry.attr_len)
    (hc2 : s.parse_info.current_attr_index < s.evt.attr_len)
    (ht1 : s.parse_info.current_attr_index + 1 ≠ s.evt.attr_len)
    (ht2 : s.parse_info.current_attr_index + 2 ≠ s.curEntry.attr_len) :
    attr_data_parse s b =
      (bumpIdx (s.writeCur s.parse_info.current_attr_index b), .ATTR_DATA, [], true) := by
  unfold attr_data_parse
  simp only
  rw [if_pos ⟨hc1, hc2⟩]
  have e1 : (bumpIdx (s.writeCur s.parse_info.current_attr_index b)).parse_info.current_attr_index
      = s.parse_info.current_attr_index + 1 := by
    rw [bumpIdx_idx, writeCur_parse_info]
  have e2 : (bumpIdx (s.writeCur s.parse_info.current_attr_index b)).evt.attr_len
      = s.evt.attr_len := by
    rw [bumpIdx_evt, writeCur_evt]
  have e3 : (bumpIdx (s.writeCur s.parse_info.current_attr_index b)).curEntry.attr_len
      = s.curEntry.attr_len := by
    rw [bumpIdx_curEntry]
    exact (writeCur_curEntry_shape s _ b).2.1
  rw [if_neg]
  rw [e1, e2, e3]
  omega

/-- `attr_data_parse` on the last data byte of a requested attribute whose
on-wire length is not larger than the capacity: copy, NUL-terminate,
deliver the event. -/
theorem attr_data_parse_last_emit (s : AncsC) (b : Nat)
    (hc1 : s.parse_info.current_attr_index < s.curEntry.attr_len)
    (hc2 : s.parse_info.current_attr_index < s.evt.attr_len)
    (hL : s.parse_info.current_attr_index + 1 = s.evt.attr_len)
    (hreq : attr_is_requested s = true) :
    attr_data_parse s b =
      ((bumpIdx (s.writeCur s.parse_info.current_attr_index b)).writeCur
          (s.parse_info.current_attr_index + 1) 0,
        (if all_req_attrs_parsed s then ParseState.DONE else .ATTR_ID),
        [AncsC.mkEvt ((bumpIdx (s.writeCur s.parse_info.current_attr_index b)).writeCur
          (s.parse_info.current_attr_index + 1) 0)], true) := by
  unfold attr_data_parse
  simp only
  rw [if_pos ⟨hc1, hc2⟩]
  have e1 : (bumpIdx (s.writeCur s.parse_info.current_attr_index b)).parse_info.current_attr_index
      = s.parse_info.current_attr_index + 1 := by
    rw [bumpIdx_idx, writeCur_parse_info]
  have e2 : (bumpIdx (s.writeCur s.parse_info.current_attr_index b)).evt.attr_len
      = s.evt.attr_len := by
    rw [bumpIdx_evt, writeCur_evt]
  rw [e1]
  rw [if_pos (Or.inl (by rw [e2]; exact hL))]
  have hreq1 : attr_is_requested (bumpIdx (s.writeCur s.parse_info.current_attr_index b)) = true := by
    rw [attr_is_requested_bumpIdx, attr_is_requested_writeCur]
    exact hreq
  rw [if_pos hreq1]
  have e4 : ((bumpIdx (s.writeCur s.parse_info.current_attr_index b)).writeCur
      (s.parse_info.current_attr_index + 1) 0).parse_info.current_attr_index
      = s.parse_info.current_attr_index + 1 := by
    rw [writeCur_parse_info, e1]
  have e5 : ((bumpIdx (s.writeCur s.parse_info.current_attr_index b)).writeCur
      (s.parse_info.current_attr_index + 1) 0).evt.attr_len = s.evt.attr_len := by
    rw [writeCur_evt, e2]
  rw [if_neg (by rw [e4, e5]; omega)]
  have hreq2 : attr_is_requested ((bumpIdx (s.writeCur s.parse_info.current_attr_index b)).writeCur
      (s.parse_info.current_attr_index + 1) 0) = true := by
    rw [attr_is_requested_writeCur]
    exact hreq1
  rw [if_pos hreq2]
  have e6 : all_req_attrs_parsed ((bumpIdx (s.writeCur s.parse_info.current_attr_index b)).writeCur
      (s.parse_info.current_attr_index + 1) 0) = all_req_attrs_parsed s := by
    rw [all_req_writeCur, all_req_bumpIdx, all_req_writeCur]
  rw [e6]
  split <;> rename_i hall <;> simp [hall]

/-- `attr_data_parse` on the byte that fills the caller buffer while wire
data remains (`current + 1 = capacity - 1 + 1`): copy, NUL-terminate, and
switch to `ATTR_SKIP` without delivering yet. -/
theorem attr_data_parse_to_skip (s : AncsC) (b : Nat)
    (hc1 : s.parse_info.current_attr_index < s.curEntry.attr_len)
    (hc2 : s.parse_info.current_attr_index < s.evt.attr_len)
    (hm : s.parse_info.current_attr_index + 2 = s.curEntry.attr_len)
    (hrem : s.parse_info.current_attr_index + 1 < s.evt.attr_len)
    (hreq : attr_is_requested s = true) :
    attr_data_parse s b =
      ((bumpIdx (s.writeCur s.parse_info.current_attr_index b)).writeCur
          (s.parse_info.current_attr_index + 1) 0,
        ParseState.ATTR_SKIP, [], true) := by
  unfold attr_data_parse
  simp only
  rw [if_pos ⟨hc1, hc2⟩]
  have e1 : (bumpIdx (s.writeCur s.parse_info.current_attr_index b)).parse_info.current_attr_index
      = s.parse_info.current_attr_index + 1 := by
    rw [bumpIdx_idx, writeCur_parse_info]
  have e3 : (bumpIdx (s.writeCur s.parse_info.current_attr_index b)).curEntry.attr_len
      = s.curEntry.attr_len := by
    rw [bumpIdx_curEntry]
    exact (writeCur_curEntry_shape s _ b).2.1
  rw [e1]
  rw [if_pos (Or.inr (by rw [e3]; exact hm))]
  have hreq1 : attr_is_requested (bumpIdx (s.writeCur s.parse_info.current_attr_index b)) = true := by
    rw [attr_is_requested_bumpIdx, attr_is_requested_writeCur]
    exact hreq
  rw [if_pos hreq1]
  have e4 : ((bumpIdx (s.writeCur s.parse_info.current_attr_index b)).writeCur
      (s.parse_info.current_attr_index + 1) 0).parse_info.current_attr_index
      = s.parse_info.current_attr_index + 1 := by
    rw [writeCur_parse_info, e1]
  have e5 : ((bumpIdx (s.writeCur s.parse_info.current_attr_index b)).writeCur
      (s.parse_info.current_attr_index + 1) 0).evt.attr_len = s.evt.attr_len := by
    rw [writeCur_evt, bumpIdx_evt, writeCur_evt]
  rw [if_pos (by rw [e4, e5]; exact hrem)]

/-- `attr_skip` while bytes of the attribute remain to be skipped. -/
theorem attr_skip_cont (s : AncsC)
    (hlt : s.parse_info.current_attr_index < s.evt.attr_len)
    (hne : s.parse_info.current_attr_index + 1 ≠ s.evt.attr_len) :
    attr_skip s = (bumpIdx s, .ATTR_SKIP, [], true) := by
  unfold attr_skip
  simp only
  rw [if_pos hlt]
  rw [if_neg (by rw [bumpIdx_idx, bumpIdx_evt]; exact hne)]

/-- `attr_skip` on the last skipped byte of a requested attribute:
deliver the event. -/
theorem attr_skip_finish (s : AncsC)
    (hlt : s.parse_info.current_attr_index < s.evt.attr_len)
    (heq : s.parse_info.current_attr_index + 1 = s.evt.attr_len)
    (hreq : attr_is_requested s = true) :
    attr_skip s = (bumpIdx s,
      (if all_req_attrs_parsed s then ParseState.DONE else .ATTR_ID),
      [AncsC.mkEvt (bumpIdx s)], true) := by
  unfold attr_skip
  simp only
  rw [if_pos hlt]
  rw [if_pos (by rw [bumpIdx_idx, bumpIdx_evt]; exact heq)]
  have h1 : attr_is_requested (bumpIdx s) = true := by
    rw [attr_is_requested_bumpIdx]; exact hreq
  rw [if_pos h1, all_req_bumpIdx]
  split <;> rename_i hall <;> simp [hall]

end Ancs

namespace Ancs

/-- State after `attr_id_parse` stores the attribute id. -/
def attrIdUpd (s : AncsC) (b : Nat) : AncsC :=
  { s with evt := { s.evt with attr_id := b } }

/-- `expected_number_of_attrs--`. -/
def decExpected (s : AncsC) : AncsC :=
  { s with parse_info := { s.parse_info with
      expected_number_of_attrs := s.parse_info.expected_number_of_attrs - 1 } }

/-- State after `attr_len2_parse` assembles the length and resets the
write cursor. -/
def len2Upd (s : AncsC) (b : Nat) : AncsC :=
  let ev := { s.evt with attr_len := s.evt.attr_len ||| (b <<< 8) }
  let pi := { s.parse_info with current_attr_index := 0 }
  { s with evt := ev, parse_info := pi }

/-- State after `command_id_parse` reads the GetNotificationAttributes
command id. -/
def cmdNotifUpd (s : AncsC) : AncsC :=
  let pi := { s.parse_info with command_id := 0, p_attr_list := ListSel.notif, nb_of_attr := BT_GATT_ANCS_NB_OF_NOTIF_ATTR }
  let ev := { s.evt with evt_type := EvtType.NOTIF_ATTRIBUTE }
  { s with parse_info := pi, evt := ev }

/-- State after `notif_uid_parse`. -/
def uidUpd (s : AncsC) (b0 b1 b2 b3 : Nat) : AncsC :=
  { s with evt := { s.evt with notif_uid := sys_get_le32 b0 b1 b2 b3 } }

theorem command_id_parse_zero (s : AncsC) :
    command_id_parse s 0 = (cmdNotifUpd s, .NOTIF_UID) := by
  have h : (0 : Nat) = BT_GATT_ANCS_COMMAND_ID_GET_NOTIF_ATTRIBUTES := rfl
  unfold command_id_parse cmdNotifUpd
  simp only [if_pos h]

theorem notif_uid_parse_eq (s : AncsC) (b0 b1 b2 b3 : Nat) :
    notif_uid_parse s b0 b1 b2 b3 = (uidUpd s b0 b1 b2 b3, .ATTR_ID) := rfl

theorem attr_len1_parse_eq (s : AncsC) (b : Nat) :
    attr_len1_parse s b = ({ s with evt := { s.evt with attr_len := b } }, .ATTR_LEN2) := rfl

/-- `attr_id_parse` on a valid, requested attribute id with outstanding
expected attributes. -/
theorem attr_id_parse_requested (s : AncsC) (b : Nat)
    (hb : ¬ s.parse_info.nb_of_attr ≤ b)
    (hexp : s.parse_info.expected_number_of_attrs ≠ 0)
    (hreq : attr_is_requested (attrIdUpd s b) = true) :
    attr_id_parse s b = (decExpected (attrIdUpd s b), .ATTR_LEN1) := by
  unfold attr_id_parse
  unfold attrIdUpd at hreq ⊢
  unfold decExpected
  simp only
  rw [if_neg hb]
  rw [if_neg (by unfold all_req_attrs_parsed; simp [hexp])]
  rw [if_pos hreq]

theorem len2Upd_curEntry (s : AncsC) (b : Nat) : (len2Upd s b).curEntry = s.curEntry := rfl

theorem attr_is_requested_len2Upd (s : AncsC) (b : Nat) :
    attr_is_requested (len2Upd s b) = attr_is_requested s := rfl

theorem all_req_len2Upd (s : AncsC) (b : Nat) :
    all_req_attrs_parsed (len2Upd s b) = all_req_attrs_parsed s := rfl

/-- `attr_len2_parse` for a non-empty attribute with registered storage. -/
theorem attr_len2_to_data (s : AncsC) (b : Nat)
    (hne : s.evt.attr_len ||| (b <<< 8) ≠ 0)
    (hcap : ¬(s.curEntry.attr_len = 0 ∨ s.curEntry.hasData = false)) :
    attr_len2_parse s b = (len2Upd s b, .ATTR_DATA, []) := by
  unfold attr_len2_parse len2Upd
  simp only
  rw [if_pos (by exact hne), if_neg (by exact hcap)]

/-- `attr_len2_parse` for a requested zero-length attribute: the event is
delivered immediately, with no terminator written. -/
theorem attr_len2_zero_emit (s : AncsC) (b : Nat)
    (hz : s.evt.attr_len ||| (b <<< 8) = 0)
    (hreq : attr_is_requested s = true) :
    attr_len2_parse s b = (len2Upd s b,
      (if all_req_attrs_parsed s then ParseState.DONE else .ATTR_ID),
      [(len2Upd s b).mkEvt]) := by
  unfold attr_len2_parse
  simp only
  split
  · rename_i hc
    exact absurd hz hc
  · split
    · rename_i hall
      rw [if_pos (show all_req_attrs_parsed s = true from hall)]
      split
      · rfl
      · rename_i hr
        exact absurd hreq hr
    · rename_i hall
      rw [if_neg (show ¬(all_req_attrs_parsed s = true) from hall)]
      split
      · rfl
      · rename_i hr
        exact absurd hreq hr

end Ancs
namespace Ancs

/-! ## Preservation lemmas for the notification-response invariant -/

theorem le16_assemble (L : Nat) (h : L < 65536) :
    L % 256 ||| ((L / 256 % 256) <<< 8) = L := by
  rw [lor_shl_eq_add (L % 256) (L / 256 % 256) 8 (Nat.mod_lt _ (by norm_num))]
  omega

theorem sameShape_set {t l : List AttrListEntry} (i iv v : Nat)
    (h : sameShape t l) :
    sameShape t (l.set i (wcData (l.getD i defaultEntry) iv v)) := by
  refine ⟨by rw [List.length_set]; exact h.1, fun j => ?_⟩
  by_cases hij : i = j
  · subst hij
    have hw := @getD_set_wcData l i (l.getD i defaultEntry) iv v rfl
    exact ⟨(h.2 i).1.trans hw.1.symm, (h.2 i).2.1.trans hw.2.1.symm,
      (h.2 i).2.2.trans hw.2.2.symm⟩
  · rw [getD_set_ne _ _ _ _ _ hij]
    exact h.2 j

theorem curEntry_setPS (s : AncsC) (st : ParseState) : (s.setPS st).curEntry = s.curEntry := rfl

theorem attr_is_requested_setPS (s : AncsC) (st : ParseState) :
    attr_is_requested (s.setPS st) = attr_is_requested s := rfl

theorem all_req_setPS (s : AncsC) (st : ParseState) :
    all_req_attrs_parsed (s.setPS st) = all_req_attrs_parsed s := rfl

theorem NRun_setPS {u : Nat} {f : Nat → Nat} {t : List AttrListEntry} {s : AncsC}
    (h : NRun u f t s) (st : ParseState) : NRun u f t (s.setPS st) :=
  ⟨h.sel, h.nb, h.ety, h.uid_eq, h.app_eq, h.len8, h.shape⟩

theorem NRun_bumpIdx {u : Nat} {f : Nat → Nat} {t : List AttrListEntry} {s : AncsC}
    (h : NRun u f t s) : NRun u f t (bumpIdx s) :=
  ⟨h.sel, h.nb, h.ety, h.uid_eq, h.app_eq, h.len8, h.shape⟩

theorem NRun_attrIdUpd {u : Nat} {f : Nat → Nat} {t : List AttrListEntry} {s : AncsC}
    (h : NRun u f t s) (b : Nat) : NRun u f t (attrIdUpd s b) :=
  ⟨h.sel, h.nb, h.ety, h.uid_eq, h.app_eq, h.len8, h.shape⟩

theorem NRun_decExpected {u : Nat} {f : Nat → Nat} {t : List AttrListEntry} {s : AncsC}
    (h : NRun u f t s) : NRun u f t (decExpected s) :=
  ⟨h.sel, h.nb, h.ety, h.uid_eq, h.app_eq, h.len8, h.shape⟩

theorem NRun_len2Upd {u : Nat} {f : Nat → Nat} {t : List AttrListEntry} {s : AncsC}
    (h : NRun u f t s) (b : Nat) : NRun u f t (len2Upd s b) :=
  ⟨h.sel, h.nb, h.ety, h.uid_eq, h.app_eq, h.len8, h.shape⟩

/-- The state after `attr_len1_parse`. -/
def len1Upd (s : AncsC) (b : Nat) : AncsC :=
  { s with evt := { s.evt with attr_len := b } }

theorem attr_len1_parse_upd (s : AncsC) (b : Nat) :
    attr_len1_parse s b = (len1Upd s b, .ATTR_LEN2) := rfl

theorem NRun_len1Upd {u : Nat} {f : Nat → Nat} {t : List AttrListEntry} {s : AncsC}
    (h : NRun u f t s) (b : Nat) : NRun u f t (len1Upd s b) :=
  ⟨h.sel, h.nb, h.ety, h.uid_eq, h.app_eq, h.len8, h.shape⟩

theorem NRun_writeCur {u : Nat} {f : Nat → Nat} {t : List AttrListEntry} {s : AncsC}
    (h : NRun u f t s) (i v : Nat) : NRun u f t (s.writeCur i v) := by
  refine ⟨?_, ?_, ?_, ?_, ?_, ?_, ?_⟩
  · rw [writeCur_parse_info]; exact h.sel
  · rw [writeCur_parse_info]; exact h.nb
  · rw [writeCur_evt]; exact h.ety
  · rw [writeCur_evt]; exact h.uid_eq
  · rw [writeCur_evt]; exact h.app_eq
  · rw [writeCur_notif_list s i v h.sel, List.length_set]; exact h.len8
  · rw [writeCur_notif_list s i v h.sel]
    exact sameShape_set _ _ _ h.shape

theorem NRun_curEntry_get {u : Nat} {f : Nat → Nat} {t : List AttrListEntry} {s : AncsC}
    (h : NRun u f t s) :
    s.curEntry.get = (t.getD s.evt.attr_id defaultEntry).get := by
  rw [curEntry_notif _ h.sel]
  exact ((h.shape.2 _).1).symm

theorem NRun_curEntry_attr_len {u : Nat} {f : Nat → Nat} {t : List AttrListEntry} {s : AncsC}
    (h : NRun u f t s) :
    s.curEntry.attr_len = (t.getD s.evt.attr_id defaultEntry).attr_len := by
  rw [curEntry_notif _ h.sel]
  exact ((h.shape.2 _).2.1).symm

theorem NRun_curEntry_hasData {u : Nat} {f : Nat → Nat} {t : List AttrListEntry} {s : AncsC}
    (h : NRun u f t s) :
    s.curEntry.hasData = (t.getD s.evt.attr_id defaultEntry).hasData := by
  rw [curEntry_notif _ h.sel]
  exact ((h.shape.2 _).2.2).symm

theorem writeCur_curEntry_data_at (s : AncsC) (i v p : Nat)
    (hsel : s.parse_info.p_attr_list = .notif)
    (hid : s.evt.attr_id < s.ancs_notif_attr_list.length) :
    (s.writeCur i v).curEntry.data p = if p = i then v else s.curEntry.data p := by
  rw [writeCur_curEntry_notif s i v hsel hid, curEntry_notif _ hsel]
  rfl

theorem drop_eq_getD_cons {l : List Nat} {j : Nat} (h : j < l.length) :
    l.drop j = l.getD j 0 :: l.drop (j + 1) := by
  rw [List.drop_eq_getElem_cons h, List.getD_eq_getElem l 0 h]

end Ancs
namespace Ancs

/-- Running the `ATTR_SKIP` loop over the remaining `attr_len - j` bytes of
a requested attribute consumes them all and delivers exactly the one event
snapshotting the current buffer. -/
theorem run_skip_loop (u : Nat) (f : Nat → Nat) (t : List AttrListEntry) :
    ∀ (n : Nat) (s : AncsC) (bytes : List Nat) (j : Nat),
      NRun u f t s →
      s.parse_info.parse_state = .ATTR_SKIP →
      s.parse_info.current_attr_index = j →
      j < s.evt.attr_len →
      bytes.length = s.evt.attr_len - j →
      n = s.evt.attr_len - j →
      attr_is_requested s = true →
      ∃ sF : AncsC,
        ancs_parse_get_attrs_response s bytes =
          some (sF, [Evt.attr ⟨s.evt.evt_type, s.evt.notif_uid, s.evt.app_id,
            s.evt.attr_id, s.evt.attr_len, s.curEntry.data⟩], true) ∧
        NRun u f t sF ∧
        sF.parse_info.expected_number_of_attrs = s.parse_info.expected_number_of_attrs ∧
        sF.parse_info.parse_state =
          (if all_req_attrs_parsed s then ParseState.DONE else .ATTR_ID) := by
  intro n
  induction n with
  | zero =>
      intro s bytes j hN hps hidx hlt hblen hfuel hreq
      omega
  | succ n ih =>
      intro s bytes j hN hps hidx hlt hblen hfuel hreq
      obtain ⟨b, rest, rfl⟩ : ∃ b rest, bytes = b :: rest := by
        cases bytes with
        | nil => simp at hblen; omega
        | cons b rest => exact ⟨b, rest, rfl⟩
      by_cases hend : j + 1 = s.evt.attr_len
      · have hfin := attr_skip_finish s (by rw [hidx]; exact hlt) (by rw [hidx]; exact hend) hreq
        have hstep := run_attr_skip s b rest hps _ _ _ hfin
        have hrest : rest = [] := by
          have hr : rest.length = 0 := by
            simp only [List.length_cons] at hblen
            omega
          exact List.eq_nil_of_length_eq_zero hr
        subst hrest
        refine ⟨(bumpIdx s).setPS (if all_req_attrs_parsed s then ParseState.DONE else .ATTR_ID),
          ?_, NRun_setPS (NRun_bumpIdx hN) _, rfl, rfl⟩
        rw [hstep, run_nil]
        rfl
      · have hcont := attr_skip_cont s (by rw [hidx]; exact hlt) (by rw [hidx]; exact hend)
        have hstep := run_attr_skip s b rest hps _ _ _ hcont
        have hN1 : NRun u f t ((bumpIdx s).setPS .ATTR_SKIP) := NRun_setPS (NRun_bumpIdx hN) _
        obtain ⟨sF, hrun, hNF, hexpF, hstF⟩ := ih ((bumpIdx s).setPS .ATTR_SKIP) rest (j + 1)
          hN1 rfl
          (by rw [setPS_current_attr_index, bumpIdx_idx, hidx])
          (by rw [setPS_evt, bumpIdx_evt]; omega)
          (by rw [setPS_evt, bumpIdx_evt]
              simp only [List.length_cons] at hblen
              omega)
          (by rw [setPS_evt, bumpIdx_evt]; omega)
          (by rw [attr_is_requested_setPS, attr_is_requested_bumpIdx]; exact hreq)
        refine ⟨sF, ?_, hNF, hexpF, hstF⟩
        rw [hstep, hrun]
        rfl

end Ancs
namespace Ancs

theorem bumpIdx_expected (s : AncsC) :
    (bumpIdx s).parse_info.expected_number_of_attrs =
      s.parse_info.expected_number_of_attrs := rfl

/-- Running the `ATTR_DATA` loop from write cursor `j` over the remaining
bytes of a requested attribute whose registered capacity is at least
`j + 2`: the parser consumes the rest of the attribute's on-wire data,
stores its first `min len (capacity - 1)` bytes followed by a NUL, and
delivers exactly one event. -/
theorem run_data_loop (u : Nat) (f : Nat → Nat) (t : List AttrListEntry) :
    ∀ (n : Nat) (s : AncsC) (data : List Nat) (j : Nat),
      NRun u f t s →
      s.parse_info.parse_state = .ATTR_DATA →
      s.parse_info.current_attr_index = j →
      data.length = s.evt.attr_len →
      s.evt.attr_id < 8 →
      j < data.length →
      j + 1 < (t.getD s.evt.attr_id defaultEntry).attr_len →
      (t.getD s.evt.attr_id defaultEntry).get = true →
      (∀ p, p < j → s.curEntry.data p = data.getD p 0) →
      n = data.length - j →
      ∃ (sF : AncsC) (dfn : Nat → Nat),
        ancs_parse_get_attrs_response s (data.drop j) =
          some (sF, [Evt.attr ⟨s.evt.evt_type, s.evt.notif_uid, s.evt.app_id,
            s.evt.attr_id, s.evt.attr_len, dfn⟩], true) ∧
        (∀ p, p < min data.length ((t.getD s.evt.attr_id defaultEntry).attr_len - 1) →
          dfn p = data.getD p 0) ∧
        dfn (min data.length ((t.getD s.evt.attr_id defaultEntry).attr_len - 1)) = 0 ∧
        NRun u f t sF ∧
        sF.parse_info.expected_number_of_attrs = s.parse_info.expected_number_of_attrs ∧
        sF.parse_info.parse_state =
          (if all_req_attrs_parsed s then ParseState.DONE else .ATTR_ID) := by
  intro n
  induction n with
  | zero =>
      intro s data j hN hps hidx hlen hid8 hjL hjcap hreq hpre hfuel
      omega
  | succ n ih =>
      intro s data j hN hps hidx hlen hid8 hjL hjcap hreq hpre hfuel
      have hdrop : data.drop j = data.getD j 0 :: data.drop (j + 1) := drop_eq_getD_cons hjL
      have hreqS : attr_is_requested s = true := by
        unfold attr_is_requested
        rw [NRun_curEntry_get hN]
        exact hreq
      have hcapS : s.curEntry.attr_len = (t.getD s.evt.attr_id defaultEntry).attr_len :=
        NRun_curEntry_attr_len hN
      have hidlt : s.evt.attr_id < s.ancs_notif_attr_list.length := by
        rw [hN.len8]; exact hid8
      have hguard1 : s.parse_info.current_attr_index < s.curEntry.attr_len := by
        rw [hidx, hcapS]; omega
      have hguard2 : s.parse_info.current_attr_index < s.evt.attr_len := by
        rw [hidx, ← hlen]; exact hjL
      -- properties of the state after the copy of byte j
      have hsel1 : (s.writeCur j (data.getD j 0)).parse_info.p_attr_list = ListSel.notif := by
        rw [writeCur_parse_info]; exact hN.sel
      have hsel2 : (bumpIdx (s.writeCur j (data.getD j 0))).parse_info.p_attr_list
          = ListSel.notif := by
        rw [bumpIdx_sel]; exact hsel1
      have hidlt2 : (bumpIdx (s.writeCur j (data.getD j 0))).evt.attr_id <
          (bumpIdx (s.writeCur j (data.getD j 0))).ancs_notif_attr_list.length := by
        rw [bumpIdx_evt, writeCur_evt, bumpIdx_notif_list,
          writeCur_notif_list s _ _ hN.sel, List.length_set]
        exact hidlt
      have hdat2 : ∀ p, (bumpIdx (s.writeCur j (data.getD j 0))).curEntry.data p =
          if p = j then data.getD j 0 else s.curEntry.data p := by
        intro p
        rw [bumpIdx_curEntry]
        exact writeCur_curEntry_data_at s j (data.getD j 0) p hN.sel hidlt
      by_cases hendL : j + 1 = data.length
      · -- last byte of the attribute: copy, terminate, emit
        have hlast := attr_data_parse_last_emit s (data.getD j 0) hguard1 hguard2
          (by rw [hidx, ← hlen]; exact hendL) hreqS
        rw [hidx] at hlast
        have hstep := run_attr_data s (data.getD j 0) (data.drop (j + 1)) hps _ _ _ hlast
        have hdropped : data.drop (j + 1) = [] := List.drop_eq_nil_of_le (by omega)
        have hmin : min data.length ((t.getD s.evt.attr_id defaultEntry).attr_len - 1)
            = data.length := by omega
        refine ⟨((bumpIdx (s.writeCur j (data.getD j 0))).writeCur (j + 1) 0).setPS
            (if all_req_attrs_parsed s then ParseState.DONE else .ATTR_ID),
          ((bumpIdx (s.writeCur j (data.getD j 0))).writeCur (j + 1) 0).curEntry.data,
          ?_, ?_, ?_, ?_, ?_, rfl⟩
        · rw [hdrop, hstep, hdropped, run_nil]
          simp only [Option.map_some', List.append_nil, mkEvt_eq, writeCur_evt, bumpIdx_evt]
        · intro p hp
          rw [hmin] at hp
          rw [writeCur_curEntry_data_at _ (j + 1) 0 p hsel2 hidlt2,
            if_neg (by omega), hdat2 p]
          by_cases hpj : p = j
          · subst hpj; rw [if_pos rfl]
          · rw [if_neg hpj]
            exact hpre p (by omega)
        · rw [hmin, writeCur_curEntry_data_at _ (j + 1) 0 _ hsel2 hidlt2,
            if_pos (by omega)]
        · exact NRun_setPS (NRun_writeCur (NRun_bumpIdx (NRun_writeCur hN _ _)) _ _) _
        · rw [setPS_expected, writeCur_parse_info, bumpIdx_expected, writeCur_parse_info]
      · by_cases hcap2 : j + 2 = (t.getD s.evt.attr_id defaultEntry).attr_len
        · -- caller buffer full, wire data remains: terminate and skip the rest
          have hskipT := attr_data_parse_to_skip s (data.getD j 0) hguard1 hguard2
            (by rw [hidx, hcapS]; exact hcap2) (by rw [hidx, ← hlen]; omega) hreqS
          rw [hidx] at hskipT
          have hstep := run_attr_data s (data.getD j 0) (data.drop (j + 1)) hps _ _ _ hskipT
          have hN4 : NRun u f t
              (((bumpIdx (s.writeCur j (data.getD j 0))).writeCur (j + 1) 0).setPS
                .ATTR_SKIP) :=
            NRun_setPS (NRun_writeCur (NRun_bumpIdx (NRun_writeCur hN _ _)) _ _) _
          obtain ⟨sF, hrun, hNF, hexpF, hstF⟩ := run_skip_loop u f t
            (data.length - (j + 1))
            (((bumpIdx (s.writeCur j (data.getD j 0))).writeCur (j + 1) 0).setPS .ATTR_SKIP)
            (data.drop (j + 1)) (j + 1) hN4 rfl
            (by rw [setPS_current_attr_index, writeCur_parse_info, bumpIdx_idx,
                  writeCur_parse_info, hidx])
            (by rw [setPS_evt, writeCur_evt, bumpIdx_evt, writeCur_evt]; omega)
            (by rw [setPS_evt, writeCur_evt, bumpIdx_evt, writeCur_evt,
                  List.length_drop, ← hlen])
            (by rw [setPS_evt, writeCur_evt, bumpIdx_evt, writeCur_evt]; omega)
            (by rw [attr_is_requested_setPS, attr_is_requested_writeCur,
                  attr_is_requested_bumpIdx, attr_is_requested_writeCur]
                exact hreqS)
          have hmin : min data.length ((t.getD s.evt.attr_id defaultEntry).attr_len - 1)
              = j + 1 := by omega
          rw [setPS_expected, writeCur_parse_info, bumpIdx_expected,
            writeCur_parse_info] at hexpF
          rw [all_req_setPS, all_req_writeCur, all_req_bumpIdx, all_req_writeCur] at hstF
          refine ⟨sF,
            (((bumpIdx (s.writeCur j (data.getD j 0))).writeCur (j + 1) 0).setPS
              .ATTR_SKIP).curEntry.data,
            ?_, ?_, ?_, hNF, hexpF, hstF⟩
          · rw [hdrop, hstep, hrun]
            simp only [Option.map_some', List.nil_append, setPS_evt, writeCur_evt,
              bumpIdx_evt]
          · intro p hp
            rw [hmin] at hp
            rw [curEntry_setPS, writeCur_curEntry_data_at _ (j + 1) 0 p hsel2 hidlt2,
              if_neg (by omega), hdat2 p]
            by_cases hpj : p = j
            · subst hpj; rw [if_pos rfl]
            · rw [if_neg hpj]
              exact hpre p (by omega)
          · rw [hmin, curEntry_setPS,
              writeCur_curEntry_data_at _ (j + 1) 0 _ hsel2 hidlt2, if_pos rfl]
        · -- neither termination condition: copy and continue
          have hcont := attr_data_parse_copy_cont s (data.getD j 0) hguard1 hguard2
            (by rw [hidx, ← hlen]; exact hendL) (by rw [hidx, hcapS]; exact hcap2)
          rw [hidx] at hcont
          have hstep := run_attr_data s (data.getD j 0) (data.drop (j + 1)) hps _ _ _ hcont
          obtain ⟨sF, dfn, hrun, hprefix, hnul, hNF, hexpF, hstF⟩ := ih
            ((bumpIdx (s.writeCur j (data.getD j 0))).setPS .ATTR_DATA) data (j + 1)
            (NRun_setPS (NRun_bumpIdx (NRun_writeCur hN _ _)) _) rfl
            (by rw [setPS_current_attr_index, bumpIdx_idx, writeCur_parse_info, hidx])
            (by rw [setPS_evt, bumpIdx_evt, writeCur_evt]; exact hlen)
            (by rw [setPS_evt, bumpIdx_evt, writeCur_evt]; exact hid8)
            (by omega)
            (by rw [setPS_evt, bumpIdx_evt, writeCur_evt]; omega)
            (by rw [setPS_evt, bumpIdx_evt, writeCur_evt]; exact hreq)
            (by intro p hp
                rw [curEntry_setPS, hdat2 p]
                by_cases hpj : p = j
                · subst hpj; rw [if_pos rfl]
                · rw [if_neg hpj]
                  exact hpre p (by omega))
            (by omega)
          rw [setPS_evt, bumpIdx_evt, writeCur_evt] at hprefix hnul
          rw [setPS_expected, bumpIdx_expected, writeCur_parse_info] at hexpF
          rw [all_req_setPS, all_req_bumpIdx, all_req_writeCur] at hstF
          refine ⟨sF, dfn, ?_, ?_, ?_, hNF, hexpF, hstF⟩
          · rw [hdrop, hstep, hrun]
            simp only [Option.map_some', List.nil_append, setPS_evt, bumpIdx_evt,
              writeCur_evt]
          · exact hprefix
          · exact hnul

end Ancs
namespace Ancs

/-- An enumerated attribute the claim quantifies over: registered
(`get`), with a caller buffer of at least 2 bytes, and an on-wire
length that fits the protocol's 16-bit length field. -/
def wfAttr (t : List AttrListEntry) (a : WireAttr) : Prop :=
  a.id < 8 ∧ (t.getD a.id defaultEntry).get = true ∧
  2 ≤ (t.getD a.id defaultEntry).attr_len ∧
  (t.getD a.id defaultEntry).hasData = true ∧
  a.data.length < 65536

instance wfAttr.decidable (t : List AttrListEntry) (a : WireAttr) :
    Decidable (wfAttr t a) := by
  unfold wfAttr
  infer_instance

/-- The event the spec promises for the attribute `a` of a
Get-Notification-Attributes response with uid `u`: a notification
attribute event carrying `a.id`, the on-wire length, and the first
`min len (max_len - 1)` bytes of the on-wire data. -/
def evtMatches (u : Nat) (f : Nat → Nat) (t : List AttrListEntry) (a : WireAttr) (e : Evt) : Prop :=
  ∃ d : AttrEvtData, e = Evt.attr d ∧ d.evt_type = EvtType.NOTIF_ATTRIBUTE ∧
    d.notif_uid = u ∧ d.app_id = f ∧ d.attr_id = a.id ∧ d.attr_len = a.data.length ∧
    ∀ p, p < min a.data.length ((t.getD a.id defaultEntry).attr_len - 1) →
      d.data p = a.data.getD p 0

/-- The delivered buffer is NUL-terminated right after the stored data,
within the registered capacity. -/
def evtTerminated (t : List AttrListEntry) (a : WireAttr) (e : Evt) : Prop :=
  ∃ d : AttrEvtData, e = Evt.attr d ∧
    min a.data.length ((t.getD a.id defaultEntry).attr_len - 1) <
      (t.getD a.id defaultEntry).attr_len ∧
    d.data (min a.data.length ((t.getD a.id defaultEntry).attr_len - 1)) = 0

theorem all_req_ite {α : Type} (x : AncsC) (A B : α) :
    (if all_req_attrs_parsed x then A else B) =
      (if x.parse_info.expected_number_of_attrs = 0 then A else B) := by
  unfold all_req_attrs_parsed
  by_cases h : x.parse_info.expected_number_of_attrs = 0 <;> simp [h]

/-- Parsing one whole attribute block (`id ‖ len(le16) ‖ data`) of a
well-formed response: one event is delivered, matching the spec's
description, and the expected-attribute counter goes down by one. -/
theorem run_block (u : Nat) (f : Nat → Nat) (t : List AttrListEntry)
    (a : WireAttr) (s : AncsC)
    (hN : NRun u f t s) (hps : s.parse_info.parse_state = .ATTR_ID)
    (hexp : s.parse_info.expected_number_of_attrs ≠ 0)
    (hwf : wfAttr t a) :
    ∃ (sF : AncsC) (e : Evt),
      ancs_parse_get_attrs_response s (attrBlock a) = some (sF, [e], true) ∧
      NRun u f t sF ∧
      sF.parse_info.expected_number_of_attrs = s.parse_info.expected_number_of_attrs - 1 ∧
      sF.parse_info.parse_state =
        (if s.parse_info.expected_number_of_attrs - 1 = 0 then ParseState.DONE
         else .ATTR_ID) ∧
      evtMatches u f t a e ∧
      (a.data.length ≠ 0 → evtTerminated t a e) := by
  obtain ⟨hid8, hreqT, hcapT, hdataT, hlen16⟩ := hwf
  have hreqA : attr_is_requested (attrIdUpd s a.id) = true := by
    unfold attr_is_requested
    rw [NRun_curEntry_get (NRun_attrIdUpd hN a.id)]
    exact hreqT
  have hA : attr_id_parse s a.id = (decExpected (attrIdUpd s a.id), .ATTR_LEN1) :=
    attr_id_parse_requested s a.id (by rw [hN.nb]; omega) hexp hreqA
  have e1 : ancs_parse_get_attrs_response s (attrBlock a) =
      ancs_parse_get_attrs_response ((decExpected (attrIdUpd s a.id)).setPS .ATTR_LEN1)
        (a.data.length % 256 :: a.data.length / 256 % 256 :: a.data) := by
    rw [show attrBlock a
        = a.id :: a.data.length % 256 :: a.data.length / 256 % 256 :: a.data from rfl]
    rw [run_attr_id s _ _ hps, hA]
  have hN1 : NRun u f t ((decExpected (attrIdUpd s a.id)).setPS .ATTR_LEN1) :=
    NRun_setPS (NRun_decExpected (NRun_attrIdUpd hN _)) _
  have e2 : ancs_parse_get_attrs_response ((decExpected (attrIdUpd s a.id)).setPS .ATTR_LEN1)
        (a.data.length % 256 :: a.data.length / 256 % 256 :: a.data) =
      ancs_parse_get_attrs_response
        ((len1Upd ((decExpected (attrIdUpd s a.id)).setPS .ATTR_LEN1)
            (a.data.length % 256)).setPS .ATTR_LEN2)
        (a.data.length / 256 % 256 :: a.data) := by
    rw [run_attr_len1 _ _ _ rfl, attr_len1_parse_upd]
  have hN2 : NRun u f t ((len1Upd ((decExpected (attrIdUpd s a.id)).setPS .ATTR_LEN1)
      (a.data.length % 256)).setPS .ATTR_LEN2) :=
    NRun_setPS (NRun_len1Upd hN1 _) _
  have hassemble : ((len1Upd ((decExpected (attrIdUpd s a.id)).setPS .ATTR_LEN1)
        (a.data.length % 256)).setPS .ATTR_LEN2).evt.attr_len
        ||| ((a.data.length / 256 % 256) <<< 8) = a.data.length := by
    show a.data.length % 256 ||| ((a.data.length / 256 % 256) <<< 8) = a.data.length
    exact le16_assemble _ hlen16
  have hreqS2 : attr_is_requested ((len1Upd ((decExpected (attrIdUpd s a.id)).setPS
      .ATTR_LEN1) (a.data.length % 256)).setPS .ATTR_LEN2) = true := by
    unfold attr_is_requested
    rw [NRun_curEntry_get hN2]
    exact hreqT
  by_cases hL0 : a.data.length = 0
  · -- zero-length attribute: delivered straight from ATTR_LEN2
    have hdata0 : a.data = [] := List.eq_nil_of_length_eq_zero hL0
    have hZ := attr_len2_zero_emit
      ((len1Upd ((decExpected (attrIdUpd s a.id)).setPS .ATTR_LEN1)
        (a.data.length % 256)).setPS .ATTR_LEN2)
      (a.data.length / 256 % 256) (by rw [hassemble]; exact hL0) hreqS2
    have e3 := run_attr_len2
      ((len1Upd ((decExpected (attrIdUpd s a.id)).setPS .ATTR_LEN1)
        (a.data.length % 256)).setPS .ATTR_LEN2)
      (a.data.length / 256 % 256) a.data rfl _ _ _ hZ
    refine ⟨(len2Upd ((len1Upd ((decExpected (attrIdUpd s a.id)).setPS .ATTR_LEN1)
        (a.data.length % 256)).setPS .ATTR_LEN2) (a.data.length / 256 % 256)).setPS
        (if all_req_attrs_parsed ((len1Upd ((decExpected (attrIdUpd s a.id)).setPS
          .ATTR_LEN1) (a.data.length % 256)).setPS .ATTR_LEN2) then ParseState.DONE
         else .ATTR_ID),
      (len2Upd ((len1Upd ((decExpected (attrIdUpd s a.id)).setPS .ATTR_LEN1)
        (a.data.length % 256)).setPS .ATTR_LEN2) (a.data.length / 256 % 256)).mkEvt,
      ?_, ?_, rfl, ?_, ?_, ?_⟩
    · rw [e1, e2, e3, hdata0, run_nil]
      rfl
    · exact NRun_setPS (NRun_len2Upd hN2 _) _
    · rw [setPS_parse_state, all_req_ite]
      rfl
    · refine ⟨_, rfl, hN.ety, hN.uid_eq, hN.app_eq, rfl, hassemble, ?_⟩
      intro p hp
      omega
    · intro h
      exact absurd hL0 h
  · -- non-empty attribute: ATTR_DATA loop (and possibly ATTR_SKIP)
    have hcap : ¬(((len1Upd ((decExpected (attrIdUpd s a.id)).setPS .ATTR_LEN1)
        (a.data.length % 256)).setPS .ATTR_LEN2).curEntry.attr_len = 0 ∨
        ((len1Upd ((decExpected (attrIdUpd s a.id)).setPS .ATTR_LEN1)
          (a.data.length % 256)).setPS .ATTR_LEN2).curEntry.hasData = false) := by
      rw [NRun_curEntry_attr_len hN2, NRun_curEntry_hasData hN2]
      rintro (h | h)
      · revert h
        show ¬((t.getD a.id defaultEntry).attr_len = 0)
        omega
      · revert h
        show ¬((t.getD a.id defaultEntry).hasData = false)
        rw [hdataT]
        simp
    have hT := attr_len2_to_data
      ((len1Upd ((decExpected (attrIdUpd s a.id)).setPS .ATTR_LEN1)
        (a.data.length % 256)).setPS .ATTR_LEN2)
      (a.data.length / 256 % 256) (by rw [hassemble]; exact hL0) hcap
    have e3 := run_attr_len2
      ((len1Upd ((decExpected (attrIdUpd s a.id)).setPS .ATTR_LEN1)
        (a.data.length % 256)).setPS .ATTR_LEN2)
      (a.data.length / 256 % 256) a.data rfl _ _ _ hT
    obtain ⟨sF, dfn, hrun, hprefix, hnul, hNF, hexpF, hstF⟩ := run_data_loop u f t
      a.data.length
      ((len2Upd ((len1Upd ((decExpected (attrIdUpd s a.id)).setPS .ATTR_LEN1)
        (a.data.length % 256)).setPS .ATTR_LEN2) (a.data.length / 256 % 256)).setPS
        .ATTR_DATA)
      a.data 0
      (NRun_setPS (NRun_len2Upd hN2 _) _) rfl rfl hassemble.symm
      (by show a.id < 8; exact hid8)
      (by omega)
      (by show 0 + 1 < (t.getD a.id defaultEntry).attr_len; omega)
      (by show (t.getD a.id defaultEntry).get = true; exact hreqT)
      (by intro p hp; omega)
      (by omega)
    rw [List.drop_zero] at hrun
    refine ⟨sF, Evt.attr ⟨((len2Upd ((len1Upd ((decExpected (attrIdUpd s a.id)).setPS .ATTR_LEN1)
        (a.data.length % 256)).setPS .ATTR_LEN2) (a.data.length / 256 % 256)).setPS
        .ATTR_DATA).evt.evt_type, ((len2Upd ((len1Upd ((decExpected (attrIdUpd s a.id)).setPS .ATTR_LEN1)
        (a.data.length % 256)).setPS .ATTR_LEN2) (a.data.length / 256 % 256)).setPS
        .ATTR_DATA).evt.notif_uid, ((len2Upd ((len1Upd ((decExpected (attrIdUpd s a.id)).setPS .ATTR_LEN1)
        (a.data.length % 256)).setPS .ATTR_LEN2) (a.data.length / 256 % 256)).setPS
        .ATTR_DATA).evt.app_id,
        ((len2Upd ((len1Upd ((decExpected (attrIdUpd s a.id)).setPS .ATTR_LEN1)
        (a.data.length % 256)).setPS .ATTR_LEN2) (a.data.length / 256 % 256)).setPS
        .ATTR_DATA).evt.attr_id, ((len2Upd ((len1Upd ((decExpected (attrIdUpd s a.id)).setPS .ATTR_LEN1)
        (a.data.length % 256)).setPS .ATTR_LEN2) (a.data.length / 256 % 256)).setPS
        .ATTR_DATA).evt.attr_len, dfn⟩, ?_, hNF, hexpF, ?_, ?_, ?_⟩
    · rw [e1, e2, e3, hrun]
      rfl
    · rw [hstF, all_req_ite]
      rfl
    · refine ⟨_, rfl, hN.ety, hN.uid_eq, hN.app_eq, rfl, hassemble, ?_⟩
      intro p hp
      exact hprefix p hp
    · intro _
      refine ⟨_, rfl, by omega, ?_⟩
      exact hnul

end Ancs
namespace Ancs

/-- Parsing the concatenated attribute blocks of a well-formed response
from `ATTR_ID` with the expected-attribute counter equal to the number of
blocks: the parser runs to completion and delivers one matching event per
block, in order. -/
theorem run_blocks (u : Nat) (f : Nat → Nat) (t : List AttrListEntry) :
    ∀ (attrs : List WireAttr) (s : AncsC),
      NRun u f t s →
      s.parse_info.parse_state = .ATTR_ID →
      s.parse_info.expected_number_of_attrs = attrs.length →
      (∀ a ∈ attrs, wfAttr t a) →
      ∃ (sF : AncsC) (evts : List Evt),
        ancs_parse_get_attrs_response s (attrs.map attrBlock).flatten =
          some (sF, evts, true) ∧
        evts.length = attrs.length ∧
        (∀ i, i < attrs.length →
          evtMatches u f t (attrs.getD i ⟨0, []⟩) (evts.getD i .invalidNotif) ∧
          ((attrs.getD i ⟨0, []⟩).data.length ≠ 0 →
            evtTerminated t (attrs.getD i ⟨0, []⟩) (evts.getD i .invalidNotif))) := by
  intro attrs
  induction attrs with
  | nil =>
      intro s hN hps hexp hwf
      exact ⟨s, [], rfl, rfl, fun i hi => absurd hi (by simp)⟩
  | cons a as ih =>
      intro s hN hps hexp hwf
      have hexpne : s.parse_info.expected_number_of_attrs ≠ 0 := by
        rw [hexp]; simp
      obtain ⟨s1, e, hrunB, hN1, hexp1, hst1, hM, hTm⟩ :=
        run_block u f t a s hN hps hexpne (hwf a (List.mem_cons_self a as))
      have hflat : ((a :: as).map attrBlock).flatten =
          attrBlock a ++ (as.map attrBlock).flatten := by simp
      have happ := run_append s (attrBlock a) s1 [e] hrunB ((as.map attrBlock).flatten)
      by_cases hnil : as = []
      · subst hnil
        refine ⟨s1, [e], ?_, rfl, ?_⟩
        · rw [hflat, happ]
          rfl
        · intro i hi
          have hi0 : i = 0 := by simpa using hi
          subst hi0
          exact ⟨hM, hTm⟩
      · have hst1' : s1.parse_info.parse_state = .ATTR_ID := by
          rw [hst1, if_neg]
          rw [hexp]
          simp only [List.length_cons]
          have : as.length ≠ 0 := fun h => hnil (List.eq_nil_of_length_eq_zero h)
          omega
        have hexp1' : s1.parse_info.expected_number_of_attrs = as.length := by
          rw [hexp1, hexp]
          simp
        obtain ⟨sF, evts, hrunR, hlenE, hprops⟩ :=
          ih s1 hN1 hst1' hexp1' (fun a' ha' => hwf a' (List.mem_cons_of_mem _ ha'))
        refine ⟨sF, e :: evts, ?_, by simp [hlenE], ?_⟩
        · rw [hflat, happ, hrunR]
          rfl
        · intro i hi
          cases i with
          | zero => exact ⟨hM, hTm⟩
          | succ n =>
              have hn : n < as.length := by
                simp only [List.length_cons] at hi
                omega
              have hp := hprops n hn
              simpa [List.getD_cons_succ] using hp

/-- Parsing a whole well-formed Get-Notification-Attributes response from a
fresh `COMMAND_ID` state delivers exactly one matching event per enumerated
attribute. -/
theorem run_notif_response (u : Nat) (attrs : List WireAttr) (s0 : AncsC)
    (hps : s0.parse_info.parse_state = .COMMAND_ID)
    (hlen8 : s0.ancs_notif_attr_list.length = 8)
    (hexp : s0.parse_info.expected_number_of_attrs = attrs.length)
    (hu : u < 2 ^ 32)
    (hwf : ∀ a ∈ attrs, wfAttr s0.ancs_notif_attr_list a) :
    ∃ (sF : AncsC) (evts : List Evt),
      ancs_parse_get_attrs_response s0 (mkNotifResponse u attrs) =
        some (sF, evts, true) ∧
      evts.length = attrs.length ∧
      (∀ i, i < attrs.length →
        evtMatches u s0.evt.app_id s0.ancs_notif_attr_list (attrs.getD i ⟨0, []⟩)
          (evts.getD i .invalidNotif) ∧
        ((attrs.getD i ⟨0, []⟩).data.length ≠ 0 →
          evtTerminated s0.ancs_notif_attr_list (attrs.getD i ⟨0, []⟩)
            (evts.getD i .invalidNotif))) := by
  have e1 : ancs_parse_get_attrs_response s0 (mkNotifResponse u attrs) =
      ancs_parse_get_attrs_response ((cmdNotifUpd s0).setPS .NOTIF_UID)
        (u % 256 :: u / 256 % 256 :: u / 2 ^ 16 % 256 :: u / 2 ^ 24 % 256 ::
          (attrs.map attrBlock).flatten) := by
    rw [show mkNotifResponse u attrs
        = 0 :: u % 256 :: u / 256 % 256 :: u / 2 ^ 16 % 256 :: u / 2 ^ 24 % 256 ::
          (attrs.map attrBlock).flatten from rfl]
    rw [run_command_id s0 _ _ hps, command_id_parse_zero]
  have e2 : ancs_parse_get_attrs_response ((cmdNotifUpd s0).setPS .NOTIF_UID)
        (u % 256 :: u / 256 % 256 :: u / 2 ^ 16 % 256 :: u / 2 ^ 24 % 256 ::
          (attrs.map attrBlock).flatten) =
      ancs_parse_get_attrs_response
        ((uidUpd ((cmdNotifUpd s0).setPS .NOTIF_UID) (u % 256) (u / 256 % 256)
          (u / 2 ^ 16 % 256) (u / 2 ^ 24 % 256)).setPS .ATTR_ID)
        (attrs.map attrBlock).flatten := by
    rw [run_notif_uid _ _ _ _ _ _ rfl, notif_uid_parse_eq]
  have hN2 : NRun u s0.evt.app_id s0.ancs_notif_attr_list
      ((uidUpd ((cmdNotifUpd s0).setPS .NOTIF_UID) (u % 256) (u / 256 % 256)
        (u / 2 ^ 16 % 256) (u / 2 ^ 24 % 256)).setPS .ATTR_ID) := by
    refine ⟨rfl, rfl, rfl, ?_, rfl, hlen8, sameShape_refl _⟩
    exact (sys_get_le32_le32 u).trans (Nat.mod_eq_of_lt hu)
  obtain ⟨sF, evts, hrun, hlen, hprops⟩ := run_blocks u s0.evt.app_id
    s0.ancs_notif_attr_list attrs
    ((uidUpd ((cmdNotifUpd s0).setPS .NOTIF_UID) (u % 256) (u / 256 % 256)
      (u / 2 ^ 16 % 256) (u / 2 ^ 24 % 256)).setPS .ATTR_ID)
    hN2 rfl hexp hwf
  exact ⟨sF, evts, (e1.trans e2).trans hrun, hlen, hprops⟩

end Ancs
namespace Ancs

/-- A registration table for the end-to-end scenarios: attribute 1
(Title) requested with a 32-byte buffer. -/
def c1Table : List AttrListEntry :=
  [defaultEntry, ⟨true, 32, true, fun _ => 0⟩, defaultEntry, defaultEntry,
   defaultEntry, defaultEntry, defaultEntry, defaultEntry]

/-- A session right after dispatching GetNotifAttrs for one requested
attribute: the parser is armed in `COMMAND_ID` and expects 1 attribute. -/
def c1State : AncsC :=
  { ancs_notif_attr_list := c1Table
    ancs_app_attr_list := [defaultEntry]
    parse_info := ⟨ListSel.notif, 8, 1, ParseState.COMMAND_ID, 0, 0, 0⟩
    evt := ⟨EvtType.NOTIF_ATTRIBUTE, 0, fun _ => 0, 0, 0⟩
    cp_write_params_sem := true
    cp_data := []
    number_of_requested_attr := 1 }

/-- **C1.**  The claim quantifies over *every* partition of a well-formed
Data Source response, "including the 4-byte notification UID"; the code's
`notif_uid_parse` reads 4 bytes at once and a record boundary inside the
UID makes the parser read past the record (`ds_uid_split_changes_events`),
so the claim as stated is false.  What holds is the claim restricted to
the partitions the parser processes without overrunning a record: whenever
`feed_records` consumes a partition of `mkNotifResponse uid attrs` with
the overrun flag clean, the delivered events are exactly one per
enumerated attribute, in order, the i-th carrying the attribute id, the
on-wire length `Lᵢ`, and the first `min Lᵢ (max_len_i - 1)` bytes of the
i-th attribute's on-wire data — the same events for every such partition,
because they are determined by the concatenation alone. -/
theorem ds_parser_reentrant_on_success
    (uid : Nat) (attrs : List WireAttr) (s0 : AncsC) (P : List (List Nat))
    (hps : s0.parse_info.parse_state = .COMMAND_ID)
    (hlen8 : s0.ancs_notif_attr_list.length = 8)
    (hexp : s0.parse_info.expected_number_of_attrs = attrs.length)
    (hu : uid < 2 ^ 32)
    (hwf : ∀ a ∈ attrs, wfAttr s0.ancs_notif_attr_list a)
    (hflat : P.flatten = mkNotifResponse uid attrs)
    (hok : (feed_records s0 P).map (fun q => q.2.2) = some true) :
    ∃ evts : List Evt,
      (feed_records s0 P).map (fun q => q.2.1) = some evts ∧
      evts.length = attrs.length ∧
      ∀ i, i < attrs.length →
        evtMatches uid s0.evt.app_id s0.ancs_notif_attr_list (attrs.getD i ⟨0, []⟩)
          (evts.getD i .invalidNotif) := by
  obtain ⟨q, hfeed, hq2⟩ := Option.map_eq_some'.mp hok
  obtain ⟨qs, qe, qb⟩ := q
  have hqb : qb = true := hq2
  subst hqb
  have hjoin := feed_records_join P s0 qs qe hfeed
  rw [hflat] at hjoin
  obtain ⟨sF, evts, hrun, hlen, hprops⟩ :=
    run_notif_response uid attrs s0 hps hlen8 hexp hu hwf
  have heq : qe = evts := congrArg (fun x => x.2.1) (Option.some.inj (hjoin.symm.trans hrun))
  refine ⟨qe, ?_, ?_, ?_⟩
  · rw [hfeed]
    rfl
  · rw [heq]; exact hlen
  · intro i hi
    rw [heq]
    exact (hprops i hi).1

/-- Counterexample to C1 as frozen: the same well-formed response
(uid 0x04030201, one 3-byte Title), fed whole, delivers its one event,
but the partition whose boundary falls inside the 4-byte UID delivers
no event at all (and the parser flags the record overrun). -/
theorem ds_uid_split_changes_events :
    ([[0, 1, 2], [3, 4, 1, 3, 0, 110, 82, 70]] : List (List Nat)).flatten =
        mkNotifResponse 67305985 [⟨1, [110, 82, 70]⟩] ∧
    (feed_records c1State [[0, 1, 2], [3, 4, 1, 3, 0, 110, 82, 70]]).map
        (fun q => (q.2.1.length, q.2.2)) = some (0, false) ∧
    (ancs_parse_get_attrs_response c1State
        (mkNotifResponse 67305985 [⟨1, [110, 82, 70]⟩])).map
        (fun q => (q.2.1.length, q.2.2)) = some (1, true) :=
  ⟨rfl, rfl, rfl⟩

/-- Witness for `ds_parser_reentrant_on_success`: the response
`00 01 02 03 04 01 03 00 6E 52 46` ("nRF" as Title), split after its
ninth byte, delivers exactly one matching event. -/
theorem ds_parser_reentrant_on_success_witness :
    (([[0, 1, 2, 3, 4, 1, 3, 0, 110], [82, 70]] : List (List Nat)).flatten =
        mkNotifResponse 67305985 [⟨1, [110, 82, 70]⟩]) ∧
    ((feed_records c1State [[0, 1, 2, 3, 4, 1, 3, 0, 110], [82, 70]]).map
        (fun q => q.2.2) = some true) ∧
    (∃ evts : List Evt,
      (feed_records c1State [[0, 1, 2, 3, 4, 1, 3, 0, 110], [82, 70]]).map
        (fun q => q.2.1) = some evts ∧
      evts.length = ([⟨1, [110, 82, 70]⟩] : List WireAttr).length ∧
      ∀ i, i < ([⟨1, [110, 82, 70]⟩] : List WireAttr).length →
        evtMatches 67305985 c1State.evt.app_id c1State.ancs_notif_attr_list
          (([⟨1, [110, 82, 70]⟩] : List WireAttr).getD i ⟨0, []⟩)
          (evts.getD i .invalidNotif)) :=
  ⟨rfl, rfl,
    ds_parser_reentrant_on_success 67305985 [⟨1, [110, 82, 70]⟩] c1State
      [[0, 1, 2, 3, 4, 1, 3, 0, 110], [82, 70]] rfl rfl rfl (by decide) (by decide)
      rfl rfl⟩

end Ancs

namespace Ancs

/-! ## NUL termination of delivered attribute buffers, over arbitrary streams -/

/-- What `bt_gatt_ancs_c_attr_add` guarantees for every registered entry:
a requested attribute has `attr_len >= 1` and a bound buffer
(`p_attr_data != NULL`). -/
def wfTable (tbl : List AttrListEntry) : Prop :=
  ∀ i, i < tbl.length → (tbl.getD i defaultEntry).get = true →
    1 ≤ (tbl.getD i defaultEntry).attr_len ∧ (tbl.getD i defaultEntry).hasData = true

instance wfTable.decidable (tbl : List AttrListEntry) : Decidable (wfTable tbl) := by
  unfold wfTable
  infer_instance

end Ancs

namespace Ancs

end Ancs

namespace Ancs

theorem bumpIdx_app_list (s : AncsC) :
    (bumpIdx s).ancs_app_attr_list = s.ancs_app_attr_list := rfl

end Ancs

namespace Ancs

end Ancs

namespace Ancs

end Ancs

namespace Ancs

end Ancs

namespace Ancs

end Ancs
namespace Ancs

/-! ## Control Point dispatch (`ancs_c.c`) and the app-attribute encoder
(`ancs_attr_parser.c`)

The Control Point mutex `cp_write_params_sem` is `true` when available.
`k_sem_take` with a timeout either takes an available semaphore or fails
with `-EAGAIN` once the timeout elapses; `bt_gatt_write`'s own result is
the explicit `writeRes` argument (`0` = accepted).  A dispatcher returns
`(err, final session, bytes handed to the transport — none when nothing
was written)`. -/

def BT_GATT_ANCS_NOTIF_ATTR_ID_TITLE : Nat := 1
def BT_GATT_ANCS_NOTIF_ATTR_ID_SUBTITLE : Nat := 2
def BT_GATT_ANCS_NOTIF_ATTR_ID_MESSAGE : Nat := 3

/-- `bt_gatt_ancs_c_cp_write`: arm the write parameters and submit; on a
`bt_gatt_write` failure the semaphore is given back immediately. -/
def bt_gatt_ancs_c_cp_write (s : AncsC) (len : Nat) (writeRes : Int) :
    Int × AncsC × Option (List Nat) :=
  if writeRes ≠ 0 then (writeRes, { s with cp_write_params_sem := true }, none)
  else (0, s, some (s.cp_data.take len))

/-- `bt_gatt_ancs_c_cp_write_callback`: give the semaphore back and hand the
provider status to the sink as one `NpError` event — unconditionally. -/
def bt_gatt_ancs_c_cp_write_callback (s : AncsC) (err : Nat) : AncsC × List Evt :=
  ({ s with cp_write_params_sem := true }, [Evt.npError err])

/-- `encode_notif_action`: `cmd ‖ uid(le32) ‖ action(u8)`, 6 bytes. -/
def encode_notif_action (uid action : Nat) : List Nat × Nat :=
  (BT_GATT_ANCS_COMMAND_ID_GET_PERFORM_NOTIF_ACTION :: (le32 uid ++ [action % 256]), 6)

/-- `bt_gatt_ancs_perform_notif_action`. -/
def bt_gatt_ancs_perform_notif_action (s : AncsC) (uid action : Nat) (writeRes : Int) :
    Int × AncsC × Option (List Nat) :=
  if s.cp_write_params_sem = false then (-EAGAIN, s, none)
  else
    let s1 : AncsC := { s with cp_write_params_sem := false }
    let enc := encode_notif_action uid action
    let s2 : AncsC := { s1 with cp_data := enc.1 }
    bt_gatt_ancs_c_cp_write s2 enc.2 writeRes

/-- The attribute bytes of the GetNotifAttrs command: the encoding loop of
`bt_gatt_ancs_get_notif_attrs` over `attr = 0.. NB_OF_NOTIF_ATTR - 1`. -/
def notifAttrsPayload (tbl : List AttrListEntry) : List Nat :=
  ((List.range BT_GATT_ANCS_NB_OF_NOTIF_ATTR).map (fun attr =>
    if (tbl.getD attr defaultEntry).get then
      attr :: (if attr = BT_GATT_ANCS_NOTIF_ATTR_ID_TITLE ∨
          attr = BT_GATT_ANCS_NOTIF_ATTR_ID_SUBTITLE ∨
          attr = BT_GATT_ANCS_NOTIF_ATTR_ID_MESSAGE
        then le16 (tbl.getD attr defaultEntry).attr_len else [])
    else [])).flatten

/-- How many table entries the loop requests. -/
def notifAttrsRequested (tbl : List AttrListEntry) : Nat :=
  ((List.range BT_GATT_ANCS_NB_OF_NOTIF_ATTR).filter
    (fun attr => (tbl.getD attr defaultEntry).get)).length

/-- `bt_gatt_ancs_get_notif_attrs`. -/
def bt_gatt_ancs_get_notif_attrs (s : AncsC) (uid : Nat) (writeRes : Int) :
    Int × AncsC × Option (List Nat) :=
  if s.cp_write_params_sem = false then (-EAGAIN, s, none)
  else
    let nreq := notifAttrsRequested s.ancs_notif_attr_list
    let bytes := BT_GATT_ANCS_COMMAND_ID_GET_NOTIF_ATTRIBUTES ::
      (le32 uid ++ notifAttrsPayload s.ancs_notif_attr_list)
    let pi := { s.parse_info with expected_number_of_attrs := nreq }
    let s1 : AncsC :=
      { s with
        cp_write_params_sem := false
        cp_data := bytes
        number_of_requested_attr := nreq
        parse_info := pi }
    bt_gatt_ancs_c_cp_write s1 bytes.length writeRes

/-- `bt_gatt_ancs_c_request_attrs`: validate the notification, dispatch,
and then assign `parse_info.parse_state = COMMAND_ID` — also when the
dispatch failed. -/
def bt_gatt_ancs_c_request_attrs (s : AncsC) (evt_id category_id uid : Nat)
    (writeRes : Int) : Int × AncsC × Option (List Nat) :=
  if bt_gatt_ancs_verify_notification_format evt_id category_id ≠ 0 then
    (bt_gatt_ancs_verify_notification_format evt_id category_id, s, none)
  else
    let r := bt_gatt_ancs_get_notif_attrs s uid writeRes
    (r.1, r.2.1.setPS .COMMAND_ID, r.2.2)

/-- `encode_app_attr_t`. -/
inductive EncodeApp
  | COMMAND_ID
  | APP_ID
  | ATTR_ID
  | DONE
  | ABORT
deriving DecidableEq

/-- The encoder's local variables: the staging buffer assembled so far
(`index` is its length), `app_id_bytes_encoded_count`,
`attr_bytes_encoded_count`, and the requested-attribute count accumulated
into `number_of_requested_attr`. -/
structure AppEncSt where
  buf : List Nat
  app_count : Nat
  attr_count : Nat
  nreq : Nat

/-- `app_attr_encode_cmd_id`. -/
def app_attr_encode_cmd_id (st : AppEncSt) : AppEncSt × EncodeApp :=
  ({ st with buf := st.buf ++ [BT_GATT_ANCS_COMMAND_ID_GET_APP_ATTRIBUTES] }, .APP_ID)

/-- `app_attr_encode_app_id`: one loop iteration of the app-id phase.  The
C runs three `if`s in sequence on the running byte count; each path that
stores checks `*p_index >= ANCS_GATTC_WRITE_PAYLOAD_LEN_MAX` (`W`) first
and aborts on overflow. -/
def app_attr_encode_app_id (W : Nat) (appId : Nat → Nat) (appLen : Nat)
    (st : AppEncSt) : AppEncSt × EncodeApp :=
  if st.app_count = appLen then
    if W ≤ st.buf.length then (st, .ABORT)
    else ({ st with buf := st.buf ++ [0], app_count := st.app_count + 1 }, .ATTR_ID)
  else if st.app_count < appLen then
    if W ≤ st.buf.length then (st, .ABORT)
    else
      ({ st with
          buf := st.buf ++ [appId st.app_count]
          app_count := st.app_count + 1 }, .APP_ID)
  else (st, .ATTR_ID)

/-- `app_attr_encode_attr_id`: one loop iteration of the attribute-id
phase (note the C tail returns `APP_ATTR_APP_ID`, not `ATTR_ID`). -/
def app_attr_encode_attr_id (tbl : List AttrListEntry) (W : Nat)
    (st : AppEncSt) : AppEncSt × EncodeApp :=
  if st.attr_count < BT_GATT_ANCS_NB_OF_APP_ATTR then
    if (tbl.getD st.attr_count defaultEntry).get then
      if W ≤ st.buf.length then (st, .ABORT)
      else
        let st1 : AppEncSt :=
          { st with
            buf := st.buf ++ [st.attr_count]
            nreq := st.nreq + 1
            attr_count := st.attr_count + 1 }
        if st1.attr_count = BT_GATT_ANCS_NB_OF_APP_ATTR then (st1, .DONE)
        else (st1, .APP_ID)
    else
      let st1 : AppEncSt := { st with attr_count := st.attr_count + 1 }
      if st1.attr_count = BT_GATT_ANCS_NB_OF_APP_ATTR then (st1, .DONE)
      else (st1, .APP_ID)
  else
    if st.attr_count = BT_GATT_ANCS_NB_OF_APP_ATTR then (st, .DONE)
    else (st, .APP_ID)

/-- The `while (state != DONE && state != ABORT)` loop of `app_attr_get`,
with fuel (each iteration appends a byte or advances a counter, so
`app_id_len + 2 * NB_OF_APP_ATTR + 8` iterations always finish). -/
def app_attr_encode_loop (tbl : List AttrListEntry) (W : Nat) (appId : Nat → Nat)
    (appLen : Nat) : Nat → AppEncSt → EncodeApp → AppEncSt × EncodeApp
  | 0, st, es => (st, es)
  | fuel + 1, st, es =>
    match es with
    | .DONE => (st, .DONE)
    | .ABORT => (st, .ABORT)
    | .COMMAND_ID =>
        let r := app_attr_encode_cmd_id st
        app_attr_encode_loop tbl W appId appLen fuel r.1 r.2
    | .APP_ID =>
        let r := app_attr_encode_app_id W appId appLen st
        app_attr_encode_loop tbl W appId appLen fuel r.1 r.2
    | .ATTR_ID =>
        let r := app_attr_encode_attr_id tbl W st
        app_attr_encode_loop tbl W appId appLen fuel r.1 r.2

/-- `app_attr_get`: take the semaphore, run the encoder state machine,
and either write the command (`DONE`) or fail with `-ENOMEM` (`ABORT`) —
in the `ABORT` case the semaphore is *not* given back. -/
def app_attr_get (s : AncsC) (W : Nat) (appId : Nat → Nat) (appLen : Nat)
    (writeRes : Int) : Int × AncsC × Option (List Nat) :=
  if s.cp_write_params_sem = false then (-EAGAIN, s, none)
  else
    let s1 : AncsC :=
      { s with
        cp_write_params_sem := false
        number_of_requested_attr := 0 }
    let r := app_attr_encode_loop s.ancs_app_attr_list W appId appLen
      (appLen + 2 * BT_GATT_ANCS_NB_OF_APP_ATTR + 8) ⟨[], 0, 0, 0⟩ .COMMAND_ID
    if r.2 = .DONE then
      let pi := { s1.parse_info with expected_number_of_attrs := r.1.nreq }
      let s2 : AncsC :=
        { s1 with
          cp_data := r.1.buf
          number_of_requested_attr := r.1.nreq
          parse_info := pi }
      bt_gatt_ancs_c_cp_write s2 r.1.buf.length writeRes
    else
      (-ENOMEM, { s1 with number_of_requested_attr := r.1.nreq }, none)

/-- `ancs_c_app_attr_request`: validate the app id, reset the parser to
`COMMAND_ID` — before taking the semaphore — and run `app_attr_get`. -/
def ancs_c_app_attr_request (s : AncsC) (W : Nat) (appId : Nat → Nat)
    (len : Nat) (writeRes : Int) : Int × AncsC × Option (List Nat) :=
  if len = 0 then (-EINVAL, s, none)
  else if appId len ≠ 0 then (-EINVAL, s, none)
  else app_attr_get (s.setPS .COMMAND_ID) W appId len writeRes

end Ancs
namespace Ancs

theorem flatten_filter_map {α β : Type} (l : List α) (p : α → Bool) (f : α → List β) :
    ((l.filter p).map f).flatten = (l.map (fun i => if p i then f i else [])).flatten := by
  induction l with
  | nil => rfl
  | cons a l ih => by_cases h : p a <;> simp [h, ih]

/-- **C3.**  The claim says a timed-out mutex acquisition leaves *every*
dispatcher without side effects.  That is true of the three dispatchers
that take the semaphore themselves (`perform_notif_action`,
`get_notif_attrs`, `app_attr_get`): they return `-EAGAIN` with the session
untouched and nothing written.  It is false of the two request wrappers:
`bt_gatt_ancs_c_request_attrs` assigns `parse_info.parse_state =
COMMAND_ID` after the failed dispatch and `ancs_c_app_attr_request`
assigns it before — on Busy both still reset the Data Source parser state
(`cp_busy_request_attrs_mutates`). -/
theorem cp_busy_no_side_effects (s : AncsC) (uid action evt_id category_id : Nat)
    (W : Nat) (appId : Nat → Nat) (len : Nat) (w : Int)
    (hbusy : s.cp_write_params_sem = false) :
    bt_gatt_ancs_perform_notif_action s uid action w = (-EAGAIN, s, none) ∧
    bt_gatt_ancs_get_notif_attrs s uid w = (-EAGAIN, s, none) ∧
    app_attr_get s W appId len w = (-EAGAIN, s, none) ∧
    (bt_gatt_ancs_verify_notification_format evt_id category_id = 0 →
      bt_gatt_ancs_c_request_attrs s evt_id category_id uid w =
        (-EAGAIN, s.setPS .COMMAND_ID, none)) ∧
    (len ≠ 0 → appId len = 0 →
      ancs_c_app_attr_request s W appId len w =
        (-EAGAIN, (s.setPS .COMMAND_ID), none)) := by
  have hperform : bt_gatt_ancs_perform_notif_action s uid action w = (-EAGAIN, s, none) := by
    unfold bt_gatt_ancs_perform_notif_action
    rw [if_pos hbusy]
  have hget : bt_gatt_ancs_get_notif_attrs s uid w = (-EAGAIN, s, none) := by
    unfold bt_gatt_ancs_get_notif_attrs
    rw [if_pos hbusy]
  have happ : ∀ W' len', app_attr_get s W' appId len' w = (-EAGAIN, s, none) := by
    intro W' len'
    unfold app_attr_get
    rw [if_pos hbusy]
  refine ⟨hperform, hget, happ W len, ?_, ?_⟩
  · intro hval
    unfold bt_gatt_ancs_c_request_attrs
    rw [if_neg (by rw [hval]; simp), hget]
  · intro hlen hnul
    unfold ancs_c_app_attr_request
    rw [if_neg hlen, if_neg (by rw [hnul]; simp)]
    unfold app_attr_get
    rw [if_pos (show (s.setPS .COMMAND_ID).cp_write_params_sem = false from hbusy)]

/-- A session whose Control Point semaphore is held, caught in the middle
of parsing a Data Source response. -/
def c3BusyState : AncsC :=
  { ancs_notif_attr_list := c1Table
    ancs_app_attr_list := [defaultEntry]
    parse_info := ⟨ListSel.notif, 8, 1, ParseState.ATTR_DATA, 0, 2, 0⟩
    evt := ⟨EvtType.NOTIF_ATTRIBUTE, 0, fun _ => 0, 0, 5⟩
    cp_write_params_sem := false
    cp_data := []
    number_of_requested_attr := 1 }

/-- Counterexample to C3 as frozen: with the mutex held, both request
wrappers return Busy (`-EAGAIN`) yet clobber the in-progress Data Source
parser state (`ATTR_DATA` becomes `COMMAND_ID`). -/
theorem cp_busy_request_attrs_mutates :
    c3BusyState.parse_info.parse_state = ParseState.ATTR_DATA ∧
    (bt_gatt_ancs_c_request_attrs c3BusyState 0 0 67305985 0).1 = -EAGAIN ∧
    (bt_gatt_ancs_c_request_attrs c3BusyState 0 0 67305985 0).2.1.parse_info.parse_state =
      ParseState.COMMAND_ID ∧
    (ancs_c_app_attr_request c3BusyState 20 (fun _ => 0) 3 0).1 = -EAGAIN ∧
    (ancs_c_app_attr_request c3BusyState 20 (fun _ => 0) 3 0).2.1.parse_info.parse_state =
      ParseState.COMMAND_ID :=
  ⟨rfl, rfl, rfl, rfl, rfl⟩

/-- Witness for `cp_busy_no_side_effects` at `c3BusyState`. -/
theorem cp_busy_no_side_effects_witness :
    bt_gatt_ancs_perform_notif_action c3BusyState 67305985 0 0 =
      (-EAGAIN, c3BusyState, none) ∧
    bt_gatt_ancs_get_notif_attrs c3BusyState 67305985 0 =
      (-EAGAIN, c3BusyState, none) ∧
    app_attr_get c3BusyState 20 (fun _ => 0) 3 0 = (-EAGAIN, c3BusyState, none) ∧
    (bt_gatt_ancs_verify_notification_format 0 0 = 0 →
      bt_gatt_ancs_c_request_attrs c3BusyState 0 0 67305985 0 =
        (-EAGAIN, c3BusyState.setPS .COMMAND_ID, none)) ∧
    ((3 : Nat) ≠ 0 → (fun _ : Nat => (0 : Nat)) 3 = 0 →
      ancs_c_app_attr_request c3BusyState 20 (fun _ => 0) 3 0 =
        (-EAGAIN, (c3BusyState.setPS .COMMAND_ID), none)) :=
  cp_busy_no_side_effects c3BusyState 67305985 0 0 0 20 (fun _ => 0) 3 0 rfl

/-- The registration tables of the spec's CP-write example: notification
attributes {AppIdentifier, Title(32), Message(32), Date,
PositiveActionLabel, NegativeActionLabel} requested. -/
def c7Table : List AttrListEntry :=
  [⟨true, 32, true, fun _ => 0⟩, ⟨true, 32, true, fun _ => 0⟩, defaultEntry,
   ⟨true, 32, true, fun _ => 0⟩, defaultEntry, ⟨true, 32, true, fun _ => 0⟩,
   ⟨true, 32, true, fun _ => 0⟩, ⟨true, 32, true, fun _ => 0⟩]

def c7State : AncsC :=
  { ancs_notif_attr_list := c7Table
    ancs_app_attr_list := [defaultEntry]
    parse_info := ⟨ListSel.notif, 8, 0, ParseState.COMMAND_ID, 0, 0, 0⟩
    evt := ⟨EvtType.NOTIF_ATTRIBUTE, 0, fun _ => 0, 0, 0⟩
    cp_write_params_sem := true
    cp_data := []
    number_of_requested_attr := 0 }

/-- **C7.**  GetNotifAttrs encoding: `0x00 ‖ uid(le32)` followed by each
requested notification attribute id in ascending order, Title, Subtitle
and Message each immediately followed by their registered `max_len` as
`le16`; `expected_number_of_attrs` is set at dispatch to the number of
requested entries.  On the spec's example table and uid 0x04030201 the
bytes are `00 01 02 03 04 00 01 20 00 03 20 00 05 06 07`. -/
theorem get_notif_attrs_encoding (s : AncsC) (uid : Nat)
    (hsem : s.cp_write_params_sem = true) :
    (∃ s' : AncsC,
      bt_gatt_ancs_get_notif_attrs s uid 0 = (0, s', some
        (0 :: (le32 uid ++
          (((List.range 8).filter (fun i => (s.ancs_notif_attr_list.getD i defaultEntry).get)).map
            (fun i => i :: (if i = 1 ∨ i = 2 ∨ i = 3
              then le16 ((s.ancs_notif_attr_list.getD i defaultEntry).attr_len)
              else []))).flatten))) ∧
      s'.parse_info.expected_number_of_attrs =
        notifAttrsRequested s.ancs_notif_attr_list ∧
      s'.number_of_requested_attr = notifAttrsRequested s.ancs_notif_attr_list ∧
      s'.cp_write_params_sem = false) ∧
    bt_gatt_ancs_get_notif_attrs c7State 67305985 0 =
      ((0 : Int), (bt_gatt_ancs_get_notif_attrs c7State 67305985 0).2.1,
        some [0, 1, 2, 3, 4, 0, 1, 32, 0, 3, 32, 0, 5, 6, 7]) ∧
    (bt_gatt_ancs_get_notif_attrs c7State 67305985 0).2.1.parse_info.expected_number_of_attrs
      = 6 := by
  refine ⟨?_, rfl, rfl⟩
  have hpayload : notifAttrsPayload s.ancs_notif_attr_list =
      (((List.range 8).filter (fun i => (s.ancs_notif_attr_list.getD i defaultEntry).get)).map
        (fun i => i :: (if i = 1 ∨ i = 2 ∨ i = 3
          then le16 ((s.ancs_notif_attr_list.getD i defaultEntry).attr_len)
          else []))).flatten := by
    unfold notifAttrsPayload
    rw [flatten_filter_map]
    rfl
  unfold bt_gatt_ancs_get_notif_attrs
  rw [if_neg (by rw [hsem]; simp)]
  refine ⟨{ s with
      cp_write_params_sem := false
      cp_data := BT_GATT_ANCS_COMMAND_ID_GET_NOTIF_ATTRIBUTES ::
        (le32 uid ++ notifAttrsPayload s.ancs_notif_attr_list)
      number_of_requested_attr := notifAttrsRequested s.ancs_notif_attr_list
      parse_info := { s.parse_info with
        expected_number_of_attrs := notifAttrsRequested s.ancs_notif_attr_list } },
    ?_, rfl, rfl, rfl⟩
  unfold bt_gatt_ancs_c_cp_write
  rw [if_neg (by simp)]
  rw [List.take_length, hpayload]
  rfl

/-- Witness for `get_notif_attrs_encoding` at the example session. -/
theorem get_notif_attrs_encoding_witness :
    (∃ s' : AncsC,
      bt_gatt_ancs_get_notif_attrs c7State 67305985 0 = (0, s', some
        (0 :: (le32 67305985 ++
          (((List.range 8).filter (fun i => (c7State.ancs_notif_attr_list.getD i defaultEntry).get)).map
            (fun i => i :: (if i = 1 ∨ i = 2 ∨ i = 3
              then le16 ((c7State.ancs_notif_attr_list.getD i defaultEntry).attr_len)
              else []))).flatten))) ∧
      s'.parse_info.expected_number_of_attrs =
        notifAttrsRequested c7State.ancs_notif_attr_list ∧
      s'.number_of_requested_attr = notifAttrsRequested c7State.ancs_notif_attr_list ∧
      s'.cp_write_params_sem = false) ∧
    bt_gatt_ancs_get_notif_attrs c7State 67305985 0 =
      ((0 : Int), (bt_gatt_ancs_get_notif_attrs c7State 67305985 0).2.1,
        some [0, 1, 2, 3, 4, 0, 1, 32, 0, 3, 32, 0, 5, 6, 7]) ∧
    (bt_gatt_ancs_get_notif_attrs c7State 67305985 0).2.1.parse_info.expected_number_of_attrs
      = 6 :=
  get_notif_attrs_encoding c7State 67305985 rfl

/-- **C8.**  PerformNotifAction encoding: exactly the 6 bytes
`0x02 ‖ uid(le32) ‖ action(u8)`; uid 0x04030201 with the positive action
yields `02 01 02 03 04 00`. -/
theorem perform_notif_action_encoding (s : AncsC) (uid action : Nat)
    (hsem : s.cp_write_params_sem = true) :
    (∃ s' : AncsC,
      bt_gatt_ancs_perform_notif_action s uid action 0 =
        (0, s', some (2 :: (le32 uid ++ [action % 256]))) ∧
      s'.cp_write_params_sem = false) ∧
    (2 :: (le32 uid ++ [action % 256])).length = 6 ∧
    (2 :: (le32 67305985 ++ [0 % 256])) = [2, 1, 2, 3, 4, 0] := by
  refine ⟨?_, rfl, rfl⟩
  unfold bt_gatt_ancs_perform_notif_action
  rw [if_neg (by rw [hsem]; simp)]
  refine ⟨{ s with
      cp_write_params_sem := false
      cp_data := 2 :: (le32 uid ++ [action % 256]) }, ?_, rfl⟩
  rfl

/-- Witness for `perform_notif_action_encoding`. -/
theorem perform_notif_action_encoding_witness :
    (∃ s' : AncsC,
      bt_gatt_ancs_perform_notif_action c7State 67305985 0 0 =
        (0, s', some (2 :: (le32 67305985 ++ [0 % 256]))) ∧
      s'.cp_write_params_sem = false) ∧
    (2 :: (le32 67305985 ++ [(0 : Nat) % 256])).length = 6 ∧
    (2 :: (le32 67305985 ++ [(0 : Nat) % 256])) = [2, 1, 2, 3, 4, 0] :=
  perform_notif_action_encoding c7State 67305985 0 rfl

/-- **C9.**  The CP write-complete callback always gives the semaphore
back and delivers the provider status as exactly one `NpError` event
(shown for any status and in particular 0xA3 = 163); a dispatch issued
after the callback can take the semaphore and returns success. -/
theorem cp_write_callback_releases_and_reports (s : AncsC) (err uid action : Nat) :
    (bt_gatt_ancs_c_cp_write_callback s err).1.cp_write_params_sem = true ∧
    (bt_gatt_ancs_c_cp_write_callback s err).2 = [Evt.npError err] ∧
    (bt_gatt_ancs_c_cp_write_callback s 163).2 = [Evt.npError 163] ∧
    ((bt_gatt_ancs_c_cp_write_callback s 163).2.length = 1) ∧
    (bt_gatt_ancs_perform_notif_action ((bt_gatt_ancs_c_cp_write_callback s err).1)
      uid action 0).1 = 0 :=
  ⟨rfl, rfl, rfl, rfl, rfl⟩

/-- A session with app attribute 0 registered, mid-way through an app id
(the write index reached 7 in an earlier record). -/
def c4State : AncsC :=
  { ancs_notif_attr_list := c1Table
    ancs_app_attr_list := [⟨true, 32, true, fun _ => 0⟩]
    parse_info := ⟨ListSel.app, 1, 1, ParseState.COMMAND_ID, 1, 0, 7⟩
    evt := ⟨EvtType.APP_ATTRIBUTE, 0, fun _ => 0, 0, 0⟩
    cp_write_params_sem := true
    cp_data := []
    number_of_requested_attr := 0 }

/-- **C4** (the code against the claim).  Encoding a 10-byte app id into a
4-byte staging buffer drives the encoder sub-state machine to `ABORT` and
the call fails with `-ENOMEM`, but the Control Point semaphore is *not*
released before returning — `app_attr_get` has no `k_sem_give` on the
`ABORT` path, so every later dispatch fails with `-EAGAIN`. -/
theorem app_attr_overflow_holds_semaphore :
    (app_attr_encode_loop c4State.ancs_app_attr_list 4 (fun _ => 65) 10
      (10 + 2 * BT_GATT_ANCS_NB_OF_APP_ATTR + 8) ⟨[], 0, 0, 0⟩ .COMMAND_ID).2 =
      EncodeApp.ABORT ∧
    (app_attr_get c4State 4 (fun _ => 65) 10 0).1 = -ENOMEM ∧
    (app_attr_get c4State 4 (fun _ => 65) 10 0).2.1.cp_write_params_sem = false ∧
    (app_attr_get c4State 4 (fun _ => 65) 10 0).2.2 = none ∧
    (bt_gatt_ancs_perform_notif_action
      (app_attr_get c4State 4 (fun _ => 65) 10 0).2.1 67305985 0 0).1 = -EAGAIN :=
  ⟨rfl, rfl, rfl, rfl, rfl⟩

/-- A session armed for a get-app-attributes response. -/
def c10State : AncsC :=
  { ancs_notif_attr_list := c1Table
    ancs_app_attr_list := [⟨true, 32, true, fun _ => 0⟩]
    parse_info := ⟨ListSel.app, 1, 1, ParseState.COMMAND_ID, 1, 0, 0⟩
    evt := ⟨EvtType.APP_ATTRIBUTE, 0, fun _ => 0, 0, 0⟩
    cp_write_params_sem := true
    cp_data := []
    number_of_requested_attr := 0 }

/-- **C10** (the code against the claim).  `app_id_parse` stores at
`evt.app_id[current_app_id_index]` with no bound: an app identifier of 33
non-NUL bytes writes index 32 of the 32-byte array
(`BT_GATT_ANCS_ATTR_DATA_MAX`) and leaves the index at 33.  And
`ancs_c_app_attr_request` resets only `parse_state`, never
`current_app_id_index`, so the index survives into the next response. -/
theorem app_id_index_overflow :
    (ancs_parse_get_attrs_response c10State
        (BT_GATT_ANCS_COMMAND_ID_GET_APP_ATTRIBUTES :: List.replicate 33 65)).map
      (fun q => (q.1.evt.app_id 32, q.1.parse_info.current_app_id_index)) =
      some (65, 33) ∧
    BT_GATT_ANCS_ATTR_DATA_MAX = 32 ∧
    (ancs_c_app_attr_request
        { c10State with parse_info := ⟨ListSel.app, 1, 1, ParseState.APP_ID, 1, 0, 33⟩ }
        20 (fun _ => 0) 3 0).2.1.parse_info.current_app_id_index = 33 :=
  ⟨rfl, rfl, rfl⟩

end Ancs
